import Mathlib

/-!
Verification development for WinMerge's `Src/ProjectFile.cpp`: a shallow
embedding of the project-file document model, the SAX-style reader handler
(`ProjectFileHandler`) and the writer (`ProjectFile::Save`), together with
theorems settling the specified properties.

The XML tokenizer/writer pair is an external collaborator; both the writer
and the reader are modelled at the level of the element-open / element-close /
text event stream that `ProjectFile::Save` emits into `Poco::XML::XMLWriter`
and that `Poco::XML::SAXParser` delivers to `ProjectFileHandler`.  Undefined
behaviour in the C++ (calling `back()` on an empty `std::list`, `top()`/`pop()`
on an empty `std::stack`) is modelled as `none`.
-/

/-! ## Element-name constants (ProjectFile.cpp lines 33-54) -/

abbrev Root_element_name : String := "project"
abbrev Paths_element_name : String := "paths"
abbrev Left_element_name : String := "left"
abbrev Middle_element_name : String := "middle"
abbrev Right_element_name : String := "right"
abbrev Filter_element_name : String := "filter"
abbrev Subfolders_element_name : String := "subfolders"
abbrev Left_ro_element_name : String := "left-readonly"
abbrev Middle_ro_element_name : String := "middle-readonly"
abbrev Right_ro_element_name : String := "right-readonly"
abbrev Unpacker_element_name : String := "unpacker"
abbrev Prediffer_element_name : String := "prediffer"
abbrev White_spaces_element_name : String := "white-spaces"
abbrev Ignore_blank_lines_element_name : String := "ignore-blank-lines"
abbrev Ignore_case_element_name : String := "ignore-case"
abbrev Ignore_cr_diff_element_name : String := "ignore-carriage-return-diff"
abbrev Ignore_numbers_element_name : String := "ignore-numbers"
abbrev Ignore_codepage_diff_element_name : String := "ignore-codepage-diff"
abbrev Ignore_comment_diff_element_name : String := "ignore-comment-diff"
abbrev Compare_method_element_name : String := "compare-method"
abbrev Hidden_list_element_name : String := "hidden-list"
abbrev Hidden_items_element_name : String := "hidden-item"

/-! ## C standard library `atoi` and `std::to_string`

The reader parses numeric fields with `atoi` (skip leading whitespace, then
an optional sign and leading decimal digits, 0 when there are none) and the
writer prints integers with `std::to_string` (canonical ASCII decimal).
Modelled with unbounded integers; `ProjectFile.cpp` never produces values
near the `int` overflow range on its own write path. -/

def isSpaceChar (c : Char) : Bool :=
  c = ' ' || c = '\t' || c = '\n' || c = '\x0b' || c = '\x0c' || c = '\r'

/-- C `isdigit` restricted to the ASCII digits `'0'..'9'`. -/
def isDigitChar (c : Char) : Bool :=
  48 ≤ c.toNat && c.toNat ≤ 57

def skipSpaces : List Char → List Char
  | [] => []
  | c :: cs => if isSpaceChar c then skipSpaces cs else c :: cs

def atoiLoop : List Char → Nat → Nat
  | [], acc => acc
  | c :: cs, acc => if isDigitChar c then atoiLoop cs (acc * 10 + (c.toNat - 48)) else acc

def atoiSigned : List Char → Int
  | [] => 0
  | c :: cs =>
    if c = '-' then -(atoiLoop cs 0 : Int)
    else if c = '+' then (atoiLoop cs 0 : Int)
    else (atoiLoop (c :: cs) 0 : Int)

def atoi (s : String) : Int := atoiSigned (skipSpaces s.data)

def digitChar (n : Nat) : Char :=
  match n with
  | 0 => '0' | 1 => '1' | 2 => '2' | 3 => '3' | 4 => '4'
  | 5 => '5' | 6 => '6' | 7 => '7' | 8 => '8' | _ => '9'

/-- Decimal digits of `n`, most significant first; `fuel` bounds the recursion
and any `fuel > n` gives the exact digits. -/
def natToDecCore : Nat → Nat → List Char
  | 0, _ => []
  | fuel+1, n => if n < 10 then [digitChar n] else natToDecCore fuel (n / 10) ++ [digitChar (n % 10)]

/-- `std::to_string` on an integer value. -/
def std_to_string (i : Int) : String :=
  if i < 0 then String.mk ('-' :: natToDecCore (i.natAbs + 1) i.natAbs)
  else String.mk (natToDecCore (i.natAbs + 1) i.natAbs)

/-! ## Document model -/

/-- Modelled from the spec: `PathContext` (declared in `Paths.h`, outside this
file's source) stores the left/middle/right path strings verbatim — §4.1: "No
validation of path syntax is performed — arbitrary strings are accepted
verbatim". -/
@[ext] structure PathContext where
  m_left : String := ""
  m_middle : String := ""
  m_right : String := ""
deriving DecidableEq

def PathContext.GetLeft (p : PathContext) : String := p.m_left
def PathContext.GetMiddle (p : PathContext) : String := p.m_middle
def PathContext.GetRight (p : PathContext) : String := p.m_right

/-- Modelled from the spec: `PathContext::SetLeft` stores the string verbatim;
the boolean normalization argument is always passed `false` by this unit. -/
def PathContext.SetLeft (p : PathContext) (s : String) (_flag : Bool) : PathContext :=
  { p with m_left := s }

def PathContext.SetMiddle (p : PathContext) (s : String) (_flag : Bool) : PathContext :=
  { p with m_middle := s }

def PathContext.SetRight (p : PathContext) (s : String) (_flag : Bool) : PathContext :=
  { p with m_right := s }

/-- One project entry.  Field names and the defaults follow the
`ProjectFileItem::ProjectFileItem()` constructor (ProjectFile.cpp lines
222-264): `m_subfolders` starts at the unset sentinel `-1`, all "has" flags
start `false`, and all twelve "save" (persist) flags start `true`. -/
@[ext] structure ProjectFileItem where
  m_paths : PathContext := {}
  m_bHasLeft : Bool := false
  m_bHasMiddle : Bool := false
  m_bHasRight : Bool := false
  m_filter : String := ""
  m_bHasFilter : Bool := false
  m_subfolders : Int := -1
  m_bHasSubfolders : Bool := false
  m_bLeftReadOnly : Bool := false
  m_bMiddleReadOnly : Bool := false
  m_bRightReadOnly : Bool := false
  m_unpacker : String := ""
  m_bHasUnpacker : Bool := false
  m_prediffer : String := ""
  m_bHasPrediffer : Bool := false
  m_nIgnoreWhite : Int := 0
  m_bHasIgnoreWhite : Bool := false
  m_bIgnoreBlankLines : Bool := false
  m_bHasIgnoreBlankLines : Bool := false
  m_bIgnoreCase : Bool := false
  m_bHasIgnoreCase : Bool := false
  m_bIgnoreEol : Bool := false
  m_bHasIgnoreEol : Bool := false
  m_bIgnoreNumbers : Bool := false
  m_bHasIgnoreNumbers : Bool := false
  m_bIgnoreCodepage : Bool := false
  m_bHasIgnoreCodepage : Bool := false
  m_bFilterCommentsLines : Bool := false
  m_bHasFilterCommentsLines : Bool := false
  m_nCompareMethod : Int := 0
  m_bHasCompareMethod : Bool := false
  m_vSavedHiddenItems : List String := []
  m_bHasHiddenItems : Bool := false
  m_bSaveFilter : Bool := true
  m_bSaveSubfolders : Bool := true
  m_bSaveUnpacker : Bool := true
  m_bSaveIgnoreWhite : Bool := true
  m_bSaveIgnoreBlankLines : Bool := true
  m_bSaveIgnoreCase : Bool := true
  m_bSaveIgnoreEol : Bool := true
  m_bSaveIgnoreNumbers : Bool := true
  m_bSaveIgnoreCodepage : Bool := true
  m_bSaveFilterCommentsLines : Bool := true
  m_bSaveCompareMethod : Bool := true
  m_bSaveHiddenItems : Bool := true
deriving DecidableEq

/-- Modelled from the spec: accessor `ProjectFileItem::HasSubfolders` from
`ProjectFile.h` (not in the provided source), reads the "has" flag. -/
def ProjectFileItem.HasSubfolders (it : ProjectFileItem) : Bool := it.m_bHasSubfolders

/-- Modelled from the spec: accessor `ProjectFileItem::GetSubfolders` from
`ProjectFile.h` (not in the provided source), reads the stored value. -/
def ProjectFileItem.GetSubfolders (it : ProjectFileItem) : Int := it.m_subfolders

/-- `ProjectFileItem::GetPaths` (ProjectFile.cpp lines 345-350): `files` is
always overwritten with `m_paths`; the caller's `bSubfolders` is overwritten
only when subfolders has an explicit value, with `GetSubfolders() == 1`.
The two C++ out-parameters are returned as a pair. -/
def ProjectFileItem.GetPaths (it : ProjectFileItem) (bSubfolders : Bool) :
    PathContext × Bool :=
  let files := it.m_paths
  if it.HasSubfolders then (files, decide (it.GetSubfolders = 1)) else (files, bSubfolders)

/-! ## SAX event stream and the reader handler -/

/-- One callback from the external streaming XML tokenizer, or one call into
the external streaming XML writer. -/
inductive XmlEvent where
  | startElement (localName : String)
  | endElement (localName : String)
  | characters (text : String)
deriving DecidableEq

/-- The mutable state of `ProjectFileHandler`: the document's entry list
(`*m_pProject`, in document order, `back` = last element) and the stack of
open element names (`m_stack`, head = top). -/
@[ext] structure HandlerState where
  items : List ProjectFileItem
  stack : List String
deriving DecidableEq

/-- `ProjectFileHandler::startElement` (lines 90-95): append a fresh default
entry when the element is the path-group marker, then push the name. -/
def ProjectFileHandler.startElement (localName : String) (st : HandlerState) : HandlerState :=
  { items := if localName = Paths_element_name then st.items ++ [({} : ProjectFileItem)] else st.items,
    stack := localName :: st.stack }

/-- `ProjectFileHandler::endElement` (lines 96-99): pop the stack;
popping an empty `std::stack` is undefined behaviour, modelled as `none`. -/
def ProjectFileHandler.endElement (st : HandlerState) : Option HandlerState :=
  match st.stack with
  | [] => none
  | _ :: rest => some { st with stack := rest }

/-- The dispatch chain of `ProjectFileHandler::characters` (lines 111-203):
route the token to the field named by the top-of-stack element. -/
def charactersUpdate (nodename token : String) (cur : ProjectFileItem) : ProjectFileItem :=
  if nodename = Left_element_name then
    { cur with m_paths := cur.m_paths.SetLeft (cur.m_paths.GetLeft ++ token) false,
               m_bHasLeft := true }
  else if nodename = Middle_element_name then
    { cur with m_paths := cur.m_paths.SetMiddle (cur.m_paths.GetMiddle ++ token) false,
               m_bHasMiddle := true }
  else if nodename = Right_element_name then
    { cur with m_paths := cur.m_paths.SetRight (cur.m_paths.GetRight ++ token) false,
               m_bHasRight := true }
  else if nodename = Filter_element_name then
    { cur with m_filter := cur.m_filter ++ token, m_bHasFilter := true }
  else if nodename = Subfolders_element_name then
    { cur with m_subfolders := atoi token, m_bHasSubfolders := true }
  else if nodename = Left_ro_element_name then
    { cur with m_bLeftReadOnly := atoi token != 0 }
  else if nodename = Middle_ro_element_name then
    { cur with m_bMiddleReadOnly := atoi token != 0 }
  else if nodename = Right_ro_element_name then
    { cur with m_bRightReadOnly := atoi token != 0 }
  else if nodename = Unpacker_element_name then
    { cur with m_unpacker := cur.m_unpacker ++ token, m_bHasUnpacker := true }
  else if nodename = Prediffer_element_name then
    { cur with m_prediffer := cur.m_prediffer ++ token, m_bHasPrediffer := true }
  else if nodename = White_spaces_element_name then
    { cur with m_nIgnoreWhite := atoi token, m_bHasIgnoreWhite := true }
  else if nodename = Ignore_blank_lines_element_name then
    { cur with m_bIgnoreBlankLines := atoi token != 0, m_bHasIgnoreBlankLines := true }
  else if nodename = Ignore_case_element_name then
    { cur with m_bIgnoreCase := atoi token != 0, m_bHasIgnoreCase := true }
  else if nodename = Ignore_cr_diff_element_name then
    { cur with m_bIgnoreEol := atoi token != 0, m_bHasIgnoreEol := true }
  else if nodename = Ignore_numbers_element_name then
    { cur with m_bIgnoreNumbers := atoi token != 0, m_bHasIgnoreNumbers := true }
  else if nodename = Ignore_codepage_diff_element_name then
    { cur with m_bIgnoreCodepage := atoi token != 0, m_bHasIgnoreCodepage := true }
  else if nodename = Ignore_comment_diff_element_name then
    { cur with m_bFilterCommentsLines := atoi token != 0, m_bHasFilterCommentsLines := true }
  else if nodename = Compare_method_element_name then
    { cur with m_nCompareMethod := atoi token, m_bHasCompareMethod := true }
  else if nodename = Hidden_items_element_name then
    { cur with m_vSavedHiddenItems := cur.m_vSavedHiddenItems ++ [token],
               m_bHasHiddenItems := true }
  else cur

/-- `ProjectFileHandler::characters` (lines 100-204).  The guard is the
source's literal conjunction: return early (discard) only when the stack depth
differs from 3 AND the document is empty.  Past the guard the C++ takes
`m_pProject->back()` and `m_stack.top()`; either on an empty container is
undefined behaviour, modelled as `none`. -/
def ProjectFileHandler.characters (token : String) (st : HandlerState) : Option HandlerState :=
  if st.stack.length ≠ 3 ∧ st.items.length = 0 then some st
  else
    match st.items.getLast?, st.stack.head? with
    | some cur, some nodename =>
        some { st with items := st.items.dropLast ++ [charactersUpdate nodename token cur] }
    | _, _ => none

/-- One tokenizer callback into the handler. -/
def handlerStep (st : HandlerState) : XmlEvent → Option HandlerState
  | .startElement n => some (ProjectFileHandler.startElement n st)
  | .endElement _ => ProjectFileHandler.endElement st
  | .characters t => ProjectFileHandler.characters t st

/-- Run the handler over a whole event stream. -/
def runHandler : List XmlEvent → HandlerState → Option HandlerState
  | [], st => some st
  | e :: es, st => (handlerStep st e).bind (runHandler es)

/-- `ProjectFile::Read` (lines 358-365): a fresh handler (empty stack) is
pointed at the existing `m_items` list, which is never cleared, and the
parser's event stream is fed through it. -/
def ProjectFile.ReadRun (events : List XmlEvent) (m_items : List ProjectFileItem) :
    Option HandlerState :=
  runHandler events { items := m_items, stack := [] }

/-! ## The writer, as the event stream `ProjectFile::Save` emits -/

/-- `writeElement` (lines 64-69): start tag, text, end tag. -/
def writeElement (tagname token : String) : List XmlEvent :=
  [XmlEvent.startElement tagname, XmlEvent.characters token, XmlEvent.endElement tagname]

/-- `saveHiddenItems` (lines 71-78): a `hidden-list` wrapper containing one
`hidden-item` element per string, in list order. -/
def saveHiddenItems (hiddenItems : List String) : List XmlEvent :=
  XmlEvent.startElement Hidden_list_element_name ::
    (hiddenItems.flatMap (fun h => writeElement Hidden_items_element_name h) ++
      [XmlEvent.endElement Hidden_list_element_name])

/-- The body of the per-entry loop of `ProjectFile::Save` (lines 382-421),
with each emission gate exactly as in the source. -/
def saveItemEvents (item : ProjectFileItem) : List XmlEvent :=
  [XmlEvent.startElement Paths_element_name] ++
  (if item.m_paths.GetLeft ≠ "" then writeElement Left_element_name item.m_paths.GetLeft else []) ++
  (if item.m_paths.GetMiddle ≠ "" then writeElement Middle_element_name item.m_paths.GetMiddle else []) ++
  (if item.m_paths.GetRight ≠ "" then writeElement Right_element_name item.m_paths.GetRight else []) ++
  (if item.m_bSaveFilter ∧ item.m_filter ≠ "" then writeElement Filter_element_name item.m_filter else []) ++
  (if item.m_bSaveSubfolders then
      writeElement Subfolders_element_name (if item.m_subfolders ≠ 0 then "1" else "0") else []) ++
  writeElement Left_ro_element_name (if item.m_bLeftReadOnly then "1" else "0") ++
  (if item.m_paths.GetMiddle ≠ "" then
      writeElement Middle_ro_element_name (if item.m_bMiddleReadOnly then "1" else "0") else []) ++
  writeElement Right_ro_element_name (if item.m_bRightReadOnly then "1" else "0") ++
  (if item.m_bSaveUnpacker ∧ item.m_unpacker ≠ "" then
      writeElement Unpacker_element_name item.m_unpacker else []) ++
  (if item.m_prediffer ≠ "" then writeElement Prediffer_element_name item.m_prediffer else []) ++
  (if item.m_bSaveIgnoreWhite then
      writeElement White_spaces_element_name (std_to_string item.m_nIgnoreWhite) else []) ++
  (if item.m_bSaveIgnoreBlankLines then
      writeElement Ignore_blank_lines_element_name (if item.m_bIgnoreBlankLines then "1" else "0") else []) ++
  (if item.m_bSaveIgnoreCase then
      writeElement Ignore_case_element_name (if item.m_bIgnoreCase then "1" else "0") else []) ++
  (if item.m_bSaveIgnoreEol then
      writeElement Ignore_cr_diff_element_name (if item.m_bIgnoreEol then "1" else "0") else []) ++
  (if item.m_bSaveIgnoreNumbers then
      writeElement Ignore_numbers_element_name (if item.m_bIgnoreNumbers then "1" else "0") else []) ++
  (if item.m_bSaveIgnoreCodepage then
      writeElement Ignore_codepage_diff_element_name (if item.m_bIgnoreCodepage then "1" else "0") else []) ++
  (if item.m_bSaveFilterCommentsLines then
      writeElement Ignore_comment_diff_element_name (if item.m_bFilterCommentsLines then "1" else "0") else []) ++
  (if item.m_bSaveCompareMethod then
      writeElement Compare_method_element_name (std_to_string item.m_nCompareMethod) else []) ++
  (if item.m_bSaveHiddenItems ∧ item.m_vSavedHiddenItems.length > 0 then
      saveHiddenItems item.m_vSavedHiddenItems else []) ++
  [XmlEvent.endElement Paths_element_name]

/-- `ProjectFile::Save` (lines 373-427): the root element wrapping one
path-group per entry, in document order. -/
def ProjectFile.SaveEvents (m_items : List ProjectFileItem) : List XmlEvent :=
  XmlEvent.startElement Root_element_name ::
    (m_items.flatMap saveItemEvents ++ [XmlEvent.endElement Root_element_name])

/-! ## Projections of an event stream used to state writer claims -/

/-- Text immediately following an element-open event (writer output always has
the shape start-text-end, so this is the element's full text). -/
def elementTextAux : List XmlEvent → Option String
  | XmlEvent.characters s :: _ => some s
  | _ => none

/-- The text of the first element named `tag` in the stream, if any. -/
def elementText (tag : String) : List XmlEvent → Option String
  | [] => none
  | XmlEvent.startElement t :: rest => if t = tag then elementTextAux rest else elementText tag rest
  | _ :: rest => elementText tag rest

/-- `true` when no text event occurs before the first `paths` element-open
event; every schema-conformant document satisfies this. -/
def noTextBeforePaths : List XmlEvent → Bool
  | [] => true
  | XmlEvent.characters _ :: _ => false
  | XmlEvent.startElement n :: rest => if n = Paths_element_name then true else noTextBeforePaths rest
  | XmlEvent.endElement _ :: rest => noTextBeforePaths rest

/-! ## Round-trip support -/

/-- All twelve persist flags of an entry are set. -/
def saveAllFlags (it : ProjectFileItem) : Prop :=
  it.m_bSaveFilter = true ∧ it.m_bSaveSubfolders = true ∧ it.m_bSaveUnpacker = true ∧
  it.m_bSaveIgnoreWhite = true ∧ it.m_bSaveIgnoreBlankLines = true ∧
  it.m_bSaveIgnoreCase = true ∧ it.m_bSaveIgnoreEol = true ∧ it.m_bSaveIgnoreNumbers = true ∧
  it.m_bSaveIgnoreCodepage = true ∧ it.m_bSaveFilterCommentsLines = true ∧
  it.m_bSaveCompareMethod = true ∧ it.m_bSaveHiddenItems = true

instance (it : ProjectFileItem) : Decidable (saveAllFlags it) := by
  unfold saveAllFlags; infer_instance

/-- The entry produced by reading back the writer's output for an entry whose
persist flags are all set. -/
def readBack (it : ProjectFileItem) : ProjectFileItem :=
  { m_paths := it.m_paths,
    m_bHasLeft := decide (it.m_paths.GetLeft ≠ ""),
    m_bHasMiddle := decide (it.m_paths.GetMiddle ≠ ""),
    m_bHasRight := decide (it.m_paths.GetRight ≠ ""),
    m_filter := it.m_filter,
    m_bHasFilter := decide (it.m_filter ≠ ""),
    m_subfolders := if it.m_subfolders ≠ 0 then 1 else 0,
    m_bHasSubfolders := true,
    m_bLeftReadOnly := it.m_bLeftReadOnly,
    m_bMiddleReadOnly := if it.m_paths.GetMiddle ≠ "" then it.m_bMiddleReadOnly else false,
    m_bRightReadOnly := it.m_bRightReadOnly,
    m_unpacker := it.m_unpacker,
    m_bHasUnpacker := decide (it.m_unpacker ≠ ""),
    m_prediffer := it.m_prediffer,
    m_bHasPrediffer := decide (it.m_prediffer ≠ ""),
    m_nIgnoreWhite := it.m_nIgnoreWhite,
    m_bHasIgnoreWhite := true,
    m_bIgnoreBlankLines := it.m_bIgnoreBlankLines,
    m_bHasIgnoreBlankLines := true,
    m_bIgnoreCase := it.m_bIgnoreCase,
    m_bHasIgnoreCase := true,
    m_bIgnoreEol := it.m_bIgnoreEol,
    m_bHasIgnoreEol := true,
    m_bIgnoreNumbers := it.m_bIgnoreNumbers,
    m_bHasIgnoreNumbers := true,
    m_bIgnoreCodepage := it.m_bIgnoreCodepage,
    m_bHasIgnoreCodepage := true,
    m_bFilterCommentsLines := it.m_bFilterCommentsLines,
    m_bHasFilterCommentsLines := true,
    m_nCompareMethod := it.m_nCompareMethod,
    m_bHasCompareMethod := true,
    m_vSavedHiddenItems := it.m_vSavedHiddenItems,
    m_bHasHiddenItems := decide (it.m_vSavedHiddenItems ≠ []) }

/-- The fields on which a full round trip agrees with the original entry:
all path strings, the filter/unpacker/prediffer strings, every
comparison-option value, and the hidden-item list in order.  The option
"has" flags all read back as `true`, and subfolders collapses to `1`/`0`. -/
def agreesOnRead (r it : ProjectFileItem) : Prop :=
  r.m_paths = it.m_paths ∧
  r.m_filter = it.m_filter ∧
  r.m_unpacker = it.m_unpacker ∧
  r.m_prediffer = it.m_prediffer ∧
  r.m_nIgnoreWhite = it.m_nIgnoreWhite ∧ r.m_bHasIgnoreWhite = true ∧
  r.m_bIgnoreBlankLines = it.m_bIgnoreBlankLines ∧ r.m_bHasIgnoreBlankLines = true ∧
  r.m_bIgnoreCase = it.m_bIgnoreCase ∧ r.m_bHasIgnoreCase = true ∧
  r.m_bIgnoreEol = it.m_bIgnoreEol ∧ r.m_bHasIgnoreEol = true ∧
  r.m_bIgnoreNumbers = it.m_bIgnoreNumbers ∧ r.m_bHasIgnoreNumbers = true ∧
  r.m_bIgnoreCodepage = it.m_bIgnoreCodepage ∧ r.m_bHasIgnoreCodepage = true ∧
  r.m_bFilterCommentsLines = it.m_bFilterCommentsLines ∧ r.m_bHasFilterCommentsLines = true ∧
  r.m_nCompareMethod = it.m_nCompareMethod ∧ r.m_bHasCompareMethod = true ∧
  r.m_vSavedHiddenItems = it.m_vSavedHiddenItems ∧
  r.m_subfolders = (if it.m_subfolders ≠ 0 then (1 : Int) else 0)

/-- Sequential application of per-block field updates, first block first. -/
def applyFuns : List (ProjectFileItem → ProjectFileItem) → ProjectFileItem → ProjectFileItem
  | [], cur => cur
  | f :: fs, cur => applyFuns fs (f cur)

/-- The per-entry body of `ProjectFile::Save` split into its emission blocks,
in source order (same content as `saveItemEvents` between the two `paths`
tags). -/
def itemBlocks (item : ProjectFileItem) : List (List XmlEvent) :=
  [ (if item.m_paths.GetLeft ≠ "" then writeElement Left_element_name item.m_paths.GetLeft else []),
    (if item.m_paths.GetMiddle ≠ "" then writeElement Middle_element_name item.m_paths.GetMiddle else []),
    (if item.m_paths.GetRight ≠ "" then writeElement Right_element_name item.m_paths.GetRight else []),
    (if item.m_bSaveFilter ∧ item.m_filter ≠ "" then writeElement Filter_element_name item.m_filter else []),
    (if item.m_bSaveSubfolders then
        writeElement Subfolders_element_name (if item.m_subfolders ≠ 0 then "1" else "0") else []),
    writeElement Left_ro_element_name (if item.m_bLeftReadOnly then "1" else "0"),
    (if item.m_paths.GetMiddle ≠ "" then
        writeElement Middle_ro_element_name (if item.m_bMiddleReadOnly then "1" else "0") else []),
    writeElement Right_ro_element_name (if item.m_bRightReadOnly then "1" else "0"),
    (if item.m_bSaveUnpacker ∧ item.m_unpacker ≠ "" then
        writeElement Unpacker_element_name item.m_unpacker else []),
    (if item.m_prediffer ≠ "" then writeElement Prediffer_element_name item.m_prediffer else []),
    (if item.m_bSaveIgnoreWhite then
        writeElement White_spaces_element_name (std_to_string item.m_nIgnoreWhite) else []),
    (if item.m_bSaveIgnoreBlankLines then
        writeElement Ignore_blank_lines_element_name (if item.m_bIgnoreBlankLines then "1" else "0") else []),
    (if item.m_bSaveIgnoreCase then
        writeElement Ignore_case_element_name (if item.m_bIgnoreCase then "1" else "0") else []),
    (if item.m_bSaveIgnoreEol then
        writeElement Ignore_cr_diff_element_name (if item.m_bIgnoreEol then "1" else "0") else []),
    (if item.m_bSaveIgnoreNumbers then
        writeElement Ignore_numbers_element_name (if item.m_bIgnoreNumbers then "1" else "0") else []),
    (if item.m_bSaveIgnoreCodepage then
        writeElement Ignore_codepage_diff_element_name (if item.m_bIgnoreCodepage then "1" else "0") else []),
    (if item.m_bSaveFilterCommentsLines then
        writeElement Ignore_comment_diff_element_name (if item.m_bFilterCommentsLines then "1" else "0") else []),
    (if item.m_bSaveCompareMethod then
        writeElement Compare_method_element_name (std_to_string item.m_nCompareMethod) else []),
    (if item.m_bSaveHiddenItems ∧ item.m_vSavedHiddenItems.length > 0 then
        saveHiddenItems item.m_vSavedHiddenItems else []) ]

/-- The field update performed by the reader for each of the emission blocks
of `itemBlocks`, in the same order. -/
def itemFuns (item : ProjectFileItem) : List (ProjectFileItem → ProjectFileItem) :=
  [ fun cur => if item.m_paths.GetLeft ≠ "" then
        charactersUpdate Left_element_name item.m_paths.GetLeft cur else cur,
    fun cur => if item.m_paths.GetMiddle ≠ "" then
        charactersUpdate Middle_element_name item.m_paths.GetMiddle cur else cur,
    fun cur => if item.m_paths.GetRight ≠ "" then
        charactersUpdate Right_element_name item.m_paths.GetRight cur else cur,
    fun cur => if item.m_bSaveFilter ∧ item.m_filter ≠ "" then
        charactersUpdate Filter_element_name item.m_filter cur else cur,
    fun cur => if item.m_bSaveSubfolders then
        charactersUpdate Subfolders_element_name (if item.m_subfolders ≠ 0 then "1" else "0") cur else cur,
    fun cur => charactersUpdate Left_ro_element_name (if item.m_bLeftReadOnly then "1" else "0") cur,
    fun cur => if item.m_paths.GetMiddle ≠ "" then
        charactersUpdate Middle_ro_element_name (if item.m_bMiddleReadOnly then "1" else "0") cur else cur,
    fun cur => charactersUpdate Right_ro_element_name (if item.m_bRightReadOnly then "1" else "0") cur,
    fun cur => if item.m_bSaveUnpacker ∧ item.m_unpacker ≠ "" then
        charactersUpdate Unpacker_element_name item.m_unpacker cur else cur,
    fun cur => if item.m_prediffer ≠ "" then
        charactersUpdate Prediffer_element_name item.m_prediffer cur else cur,
    fun cur => if item.m_bSaveIgnoreWhite then
        charactersUpdate White_spaces_element_name (std_to_string item.m_nIgnoreWhite) cur else cur,
    fun cur => if item.m_bSaveIgnoreBlankLines then
        charactersUpdate Ignore_blank_lines_element_name (if item.m_bIgnoreBlankLines then "1" else "0") cur else cur,
    fun cur => if item.m_bSaveIgnoreCase then
        charactersUpdate Ignore_case_element_name (if item.m_bIgnoreCase then "1" else "0") cur else cur,
    fun cur => if item.m_bSaveIgnoreEol then
        charactersUpdate Ignore_cr_diff_element_name (if item.m_bIgnoreEol then "1" else "0") cur else cur,
    fun cur => if item.m_bSaveIgnoreNumbers then
        charactersUpdate Ignore_numbers_element_name (if item.m_bIgnoreNumbers then "1" else "0") cur else cur,
    fun cur => if item.m_bSaveIgnoreCodepage then
        charactersUpdate Ignore_codepage_diff_element_name (if item.m_bIgnoreCodepage then "1" else "0") cur else cur,
    fun cur => if item.m_bSaveFilterCommentsLines then
        charactersUpdate Ignore_comment_diff_element_name (if item.m_bFilterCommentsLines then "1" else "0") cur else cur,
    fun cur => if item.m_bSaveCompareMethod then
        charactersUpdate Compare_method_element_name (std_to_string item.m_nCompareMethod) cur else cur,
    fun cur => if item.m_bSaveHiddenItems ∧ item.m_vSavedHiddenItems.length > 0 then
        { cur with m_vSavedHiddenItems := cur.m_vSavedHiddenItems ++ item.m_vSavedHiddenItems,
                   m_bHasHiddenItems := cur.m_bHasHiddenItems || !item.m_vSavedHiddenItems.isEmpty }
      else cur ]

/-- The element names that carry a has flag: every child element of a paths
group except the three read-only markers (which have no has flag). -/
def hasElementNames : List String :=
  [Left_element_name, Middle_element_name, Right_element_name, Filter_element_name,
   Subfolders_element_name, Unpacker_element_name, Prediffer_element_name,
   White_spaces_element_name, Ignore_blank_lines_element_name, Ignore_case_element_name,
   Ignore_cr_diff_element_name, Ignore_numbers_element_name, Ignore_codepage_diff_element_name,
   Ignore_comment_diff_element_name, Compare_method_element_name, Hidden_items_element_name]

/-- The has flag belonging to each element name (the flag `charactersUpdate`
sets when dispatching that element's text); `false` for the read-only markers
and for unrecognized names, which carry no has flag. -/
def hasFlagForElement (nodename : String) (it : ProjectFileItem) : Bool :=
  if nodename = Left_element_name then it.m_bHasLeft
  else if nodename = Middle_element_name then it.m_bHasMiddle
  else if nodename = Right_element_name then it.m_bHasRight
  else if nodename = Filter_element_name then it.m_bHasFilter
  else if nodename = Subfolders_element_name then it.m_bHasSubfolders
  else if nodename = Unpacker_element_name then it.m_bHasUnpacker
  else if nodename = Prediffer_element_name then it.m_bHasPrediffer
  else if nodename = White_spaces_element_name then it.m_bHasIgnoreWhite
  else if nodename = Ignore_blank_lines_element_name then it.m_bHasIgnoreBlankLines
  else if nodename = Ignore_case_element_name then it.m_bHasIgnoreCase
  else if nodename = Ignore_cr_diff_element_name then it.m_bHasIgnoreEol
  else if nodename = Ignore_numbers_element_name then it.m_bHasIgnoreNumbers
  else if nodename = Ignore_codepage_diff_element_name then it.m_bHasIgnoreCodepage
  else if nodename = Ignore_comment_diff_element_name then it.m_bHasFilterCommentsLines
  else if nodename = Compare_method_element_name then it.m_bHasCompareMethod
  else if nodename = Hidden_items_element_name then it.m_bHasHiddenItems
  else false

/-! # Helper lemmas -/

theorem runHandler_append (l1 l2 : List XmlEvent) (st : HandlerState) :
    runHandler (l1 ++ l2) st = (runHandler l1 st).bind (runHandler l2) := by
  induction l1 generalizing st with
  | nil => simp [runHandler]
  | cons e es ih =>
    simp only [List.cons_append, runHandler]
    cases handlerStep st e with
    | none => simp
    | some st' => simp [ih]

theorem str_empty_append (s : String) : "" ++ s = s := by
  cases s; rfl

/-! ## Decimal print/parse round trip -/

theorem digitChar_isDigit {n : Nat} (h : n < 10) : isDigitChar (digitChar n) = true := by
  interval_cases n <;> decide

theorem digitChar_toNat {n : Nat} (h : n < 10) : (digitChar n).toNat - 48 = n := by
  interval_cases n <;> decide

theorem natToDecCore_digits :
    ∀ (fuel n : Nat), ∀ c ∈ natToDecCore fuel n, isDigitChar c = true := by
  intro fuel
  induction fuel with
  | zero => intro n c hc; simp [natToDecCore] at hc
  | succ fuel ih =>
    intro n c hc
    by_cases h : n < 10
    · simp [natToDecCore, h] at hc
      exact hc ▸ digitChar_isDigit h
    · simp [natToDecCore, h, List.mem_append] at hc
      rcases hc with hc | hc
      · exact ih _ c hc
      · exact hc ▸ digitChar_isDigit (Nat.mod_lt _ (by omega))

theorem natToDecCore_ne_nil (fuel n : Nat) (h : 0 < fuel) : natToDecCore fuel n ≠ [] := by
  cases fuel with
  | zero => omega
  | succ fuel =>
    by_cases h10 : n < 10 <;> simp [natToDecCore, h10]

theorem atoiLoop_append (l1 l2 : List Char) (acc : Nat)
    (h : ∀ c ∈ l1, isDigitChar c = true) :
    atoiLoop (l1 ++ l2) acc = atoiLoop l2 (atoiLoop l1 acc) := by
  induction l1 generalizing acc with
  | nil => simp [atoiLoop]
  | cons c cs ih =>
    have hc : isDigitChar c = true := h c (by simp)
    simp only [List.cons_append, atoiLoop, hc, if_true]
    exact ih _ (fun d hd => h d (by simp [hd]))

theorem atoiLoop_natToDecCore :
    ∀ (fuel n acc : Nat), n < fuel →
      atoiLoop (natToDecCore fuel n) acc = acc * 10 ^ (natToDecCore fuel n).length + n := by
  intro fuel
  induction fuel with
  | zero => intro n acc h; omega
  | succ fuel ih =>
    intro n acc h
    by_cases h10 : n < 10
    · have hd : isDigitChar (digitChar n) = true := digitChar_isDigit h10
      simp [natToDecCore, h10, atoiLoop, hd, digitChar_toNat h10]
    · have hrec : n / 10 < fuel := by omega
      have hdig : ∀ c ∈ natToDecCore fuel (n / 10), isDigitChar c = true :=
        fun c hc => natToDecCore_digits fuel (n / 10) c hc
      have hm : n % 10 < 10 := Nat.mod_lt _ (by omega)
      simp only [natToDecCore, h10, if_false, ite_false]
      rw [atoiLoop_append _ _ _ hdig, ih _ _ hrec]
      have hdm : 10 * (n / 10) + n % 10 = n := Nat.div_add_mod n 10
      simp only [atoiLoop, digitChar_isDigit hm, if_true, digitChar_toNat hm,
        List.length_append, List.length_cons, List.length_nil]
      calc (acc * 10 ^ (natToDecCore fuel (n / 10)).length + n / 10) * 10 + n % 10
          = acc * (10 ^ (natToDecCore fuel (n / 10)).length * 10) + (10 * (n / 10) + n % 10) := by
            ring
        _ = acc * 10 ^ ((natToDecCore fuel (n / 10)).length + 1) + n := by
            rw [hdm, pow_succ]

theorem not_space_of_digit {c : Char} (h : isDigitChar c = true) : isSpaceChar c = false := by
  rw [Bool.eq_false_iff]
  intro hs
  have hs' : c = ' ' ∨ c = '\t' ∨ c = '\n' ∨ c = '\x0b' ∨ c = '\x0c' ∨ c = '\r' := by
    simpa [isSpaceChar, or_assoc] using hs
  rcases hs' with h2 | h2 | h2 | h2 | h2 | h2 <;> rw [h2] at h <;> exact absurd h (by decide)

theorem ne_minus_of_digit {c : Char} (h : isDigitChar c = true) : c ≠ '-' := by
  intro h2; rw [h2] at h; exact absurd h (by decide)

theorem ne_plus_of_digit {c : Char} (h : isDigitChar c = true) : c ≠ '+' := by
  intro h2; rw [h2] at h; exact absurd h (by decide)

/-- `atoi` inverts `std::to_string` on every integer. -/
theorem atoi_std_to_string (i : Int) : atoi (std_to_string i) = i := by
  by_cases hneg : i < 0
  · have habs : i.natAbs < i.natAbs + 1 := Nat.lt_succ_self _
    simp only [std_to_string, hneg, if_true, atoi]
    have hskip : skipSpaces ('-' :: natToDecCore (i.natAbs + 1) i.natAbs) =
        '-' :: natToDecCore (i.natAbs + 1) i.natAbs := by
      simp [skipSpaces, isSpaceChar]
    rw [hskip]
    have hstep : atoiSigned ('-' :: natToDecCore (i.natAbs + 1) i.natAbs) =
        -(atoiLoop (natToDecCore (i.natAbs + 1) i.natAbs) 0 : Int) := by
      simp [atoiSigned]
    rw [hstep, atoiLoop_natToDecCore _ _ _ habs]
    simp only [Nat.zero_mul, Nat.zero_add]
    omega
  · have habs : i.natAbs < i.natAbs + 1 := Nat.lt_succ_self _
    simp only [std_to_string, hneg, if_false, ite_false, atoi]
    obtain ⟨c, rest, hcr⟩ :=
      List.exists_cons_of_ne_nil (natToDecCore_ne_nil (i.natAbs + 1) i.natAbs (by omega))
    have hc : isDigitChar c = true :=
      natToDecCore_digits _ _ c (by rw [hcr]; simp)
    rw [hcr]
    have hskip : skipSpaces (c :: rest) = c :: rest := by
      simp [skipSpaces, not_space_of_digit hc]
    rw [hskip]
    simp only [atoiSigned, if_neg (ne_minus_of_digit hc), if_neg (ne_plus_of_digit hc)]
    rw [← hcr, atoiLoop_natToDecCore _ _ _ habs]
    simp only [Nat.zero_mul, Nat.zero_add]
    omega

/-! ## Reduction lemmas for the dispatch chain -/

theorem charactersUpdate_left (token : String) (cur : ProjectFileItem) :
    charactersUpdate Left_element_name token cur =
    { cur with m_paths := { cur.m_paths with m_left := cur.m_paths.m_left ++ token },
               m_bHasLeft := true } := rfl

theorem charactersUpdate_middle (token : String) (cur : ProjectFileItem) :
    charactersUpdate Middle_element_name token cur =
    { cur with m_paths := { cur.m_paths with m_middle := cur.m_paths.m_middle ++ token },
               m_bHasMiddle := true } := rfl

theorem charactersUpdate_right (token : String) (cur : ProjectFileItem) :
    charactersUpdate Right_element_name token cur =
    { cur with m_paths := { cur.m_paths with m_right := cur.m_paths.m_right ++ token },
               m_bHasRight := true } := rfl

theorem charactersUpdate_filter (token : String) (cur : ProjectFileItem) :
    charactersUpdate Filter_element_name token cur =
    { cur with m_filter := cur.m_filter ++ token, m_bHasFilter := true } := rfl

theorem charactersUpdate_subfolders (token : String) (cur : ProjectFileItem) :
    charactersUpdate Subfolders_element_name token cur =
    { cur with m_subfolders := atoi token, m_bHasSubfolders := true } := rfl

theorem charactersUpdate_left_ro (token : String) (cur : ProjectFileItem) :
    charactersUpdate Left_ro_element_name token cur =
    { cur with m_bLeftReadOnly := atoi token != 0 } := rfl

theorem charactersUpdate_middle_ro (token : String) (cur : ProjectFileItem) :
    charactersUpdate Middle_ro_element_name token cur =
    { cur with m_bMiddleReadOnly := atoi token != 0 } := rfl

theorem charactersUpdate_right_ro (token : String) (cur : ProjectFileItem) :
    charactersUpdate Right_ro_element_name token cur =
    { cur with m_bRightReadOnly := atoi token != 0 } := rfl

theorem charactersUpdate_unpacker (token : String) (cur : ProjectFileItem) :
    charactersUpdate Unpacker_element_name token cur =
    { cur with m_unpacker := cur.m_unpacker ++ token, m_bHasUnpacker := true } := rfl

theorem charactersUpdate_prediffer (token : String) (cur : ProjectFileItem) :
    charactersUpdate Prediffer_element_name token cur =
    { cur with m_prediffer := cur.m_prediffer ++ token, m_bHasPrediffer := true } := rfl

theorem charactersUpdate_white_spaces (token : String) (cur : ProjectFileItem) :
    charactersUpdate White_spaces_element_name token cur =
    { cur with m_nIgnoreWhite := atoi token, m_bHasIgnoreWhite := true } := rfl

theorem charactersUpdate_blank_lines (token : String) (cur : ProjectFileItem) :
    charactersUpdate Ignore_blank_lines_element_name token cur =
    { cur with m_bIgnoreBlankLines := atoi token != 0, m_bHasIgnoreBlankLines := true } := rfl

theorem charactersUpdate_case (token : String) (cur : ProjectFileItem) :
    charactersUpdate Ignore_case_element_name token cur =
    { cur with m_bIgnoreCase := atoi token != 0, m_bHasIgnoreCase := true } := rfl

theorem charactersUpdate_eol (token : String) (cur : ProjectFileItem) :
    charactersUpdate Ignore_cr_diff_element_name token cur =
    { cur with m_bIgnoreEol := atoi token != 0, m_bHasIgnoreEol := true } := rfl

theorem charactersUpdate_numbers (token : String) (cur : ProjectFileItem) :
    charactersUpdate Ignore_numbers_element_name token cur =
    { cur with m_bIgnoreNumbers := atoi token != 0, m_bHasIgnoreNumbers := true } := rfl

theorem charactersUpdate_codepage (token : String) (cur : ProjectFileItem) :
    charactersUpdate Ignore_codepage_diff_element_name token cur =
    { cur with m_bIgnoreCodepage := atoi token != 0, m_bHasIgnoreCodepage := true } := rfl

theorem charactersUpdate_comment (token : String) (cur : ProjectFileItem) :
    charactersUpdate Ignore_comment_diff_element_name token cur =
    { cur with m_bFilterCommentsLines := atoi token != 0, m_bHasFilterCommentsLines := true } := rfl

theorem charactersUpdate_compare_method (token : String) (cur : ProjectFileItem) :
    charactersUpdate Compare_method_element_name token cur =
    { cur with m_nCompareMethod := atoi token, m_bHasCompareMethod := true } := rfl

theorem charactersUpdate_hidden_item (token : String) (cur : ProjectFileItem) :
    charactersUpdate Hidden_items_element_name token cur =
    { cur with m_vSavedHiddenItems := cur.m_vSavedHiddenItems ++ [token],
               m_bHasHiddenItems := true } := rfl

/-! ## Running the handler over writer blocks -/

theorem run_writeElement (tag token : String) (htag : tag ≠ Paths_element_name)
    (prev : List ProjectFileItem) (cur : ProjectFileItem) (stack : List String) :
    runHandler (writeElement tag token) { items := prev ++ [cur], stack := stack } =
    some { items := prev ++ [charactersUpdate tag token cur], stack := stack } := by
  simp [writeElement, runHandler, handlerStep, ProjectFileHandler.startElement, htag,
    ProjectFileHandler.characters, ProjectFileHandler.endElement,
    List.getLast?_concat, List.dropLast_concat]

theorem run_emitIf (c : Prop) [Decidable c] (tag token : String)
    (htag : tag ≠ Paths_element_name)
    (prev : List ProjectFileItem) (cur : ProjectFileItem) (stack : List String) :
    runHandler (if c then writeElement tag token else [])
      { items := prev ++ [cur], stack := stack } =
    some { items := prev ++ [if c then charactersUpdate tag token cur else cur],
           stack := stack } := by
  by_cases hc : c
  · simp only [if_pos hc]; exact run_writeElement tag token htag prev cur stack
  · simp only [if_neg hc, runHandler]

theorem run_hiddenLoop (hs : List String)
    (prev : List ProjectFileItem) (cur : ProjectFileItem) (stack : List String) :
    runHandler (hs.flatMap (fun h => writeElement Hidden_items_element_name h))
      { items := prev ++ [cur], stack := stack } =
    some { items := prev ++ [{ cur with
             m_vSavedHiddenItems := cur.m_vSavedHiddenItems ++ hs,
             m_bHasHiddenItems := cur.m_bHasHiddenItems || !hs.isEmpty }],
           stack := stack } := by
  induction hs generalizing cur with
  | nil => simp [runHandler]
  | cons h hs ih =>
    rw [List.flatMap_cons, runHandler_append,
      run_writeElement _ _ (by decide) prev cur stack]
    simp only [Option.some_bind, charactersUpdate_hidden_item]
    rw [ih]
    simp [List.append_assoc]

theorem run_saveHiddenItems (hs : List String)
    (prev : List ProjectFileItem) (cur : ProjectFileItem) (stack : List String) :
    runHandler (saveHiddenItems hs) { items := prev ++ [cur], stack := stack } =
    some { items := prev ++ [{ cur with
             m_vSavedHiddenItems := cur.m_vSavedHiddenItems ++ hs,
             m_bHasHiddenItems := cur.m_bHasHiddenItems || !hs.isEmpty }],
           stack := stack } := by
  have h1 : saveHiddenItems hs = [XmlEvent.startElement Hidden_list_element_name] ++
      ((hs.flatMap fun h => writeElement Hidden_items_element_name h) ++
        [XmlEvent.endElement Hidden_list_element_name]) := rfl
  rw [h1, runHandler_append]
  have h2 : runHandler [XmlEvent.startElement Hidden_list_element_name]
      { items := prev ++ [cur], stack := stack } =
      some { items := prev ++ [cur], stack := Hidden_list_element_name :: stack } := by
    simp [runHandler, handlerStep, ProjectFileHandler.startElement,
      Hidden_list_element_name, Paths_element_name]
  rw [h2, Option.some_bind, runHandler_append, run_hiddenLoop]
  simp [runHandler, handlerStep, ProjectFileHandler.endElement]

theorem runHandler_cons_start (n : String) (l : List XmlEvent) (st : HandlerState) :
    runHandler (XmlEvent.startElement n :: l) st =
    runHandler l (ProjectFileHandler.startElement n st) := by
  simp [runHandler, handlerStep]

theorem runHandler_single_end (n : String) (items : List ProjectFileItem)
    (top : String) (rest : List String) :
    runHandler [XmlEvent.endElement n] { items := items, stack := top :: rest } =
    some { items := items, stack := rest } := by
  simp [runHandler, handlerStep, ProjectFileHandler.endElement]

theorem run_emitIf_hidden (c : Prop) [Decidable c] (hs : List String)
    (prev : List ProjectFileItem) (cur : ProjectFileItem) (stack : List String) :
    runHandler (if c then saveHiddenItems hs else [])
      { items := prev ++ [cur], stack := stack } =
    some { items := prev ++ [if c then { cur with
             m_vSavedHiddenItems := cur.m_vSavedHiddenItems ++ hs,
             m_bHasHiddenItems := cur.m_bHasHiddenItems || !hs.isEmpty } else cur],
           stack := stack } := by
  by_cases hc : c
  · simp only [if_pos hc]; exact run_saveHiddenItems hs prev cur stack
  · simp only [if_neg hc, runHandler]

theorem atoi_one : atoi "1" = 1 := by decide

theorem atoi_zero : atoi "0" = 0 := by decide

theorem atoi_bool_text (b : Bool) : (atoi (if b then "1" else "0") != 0) = b := by
  cases b <;> decide

theorem atoi_ite_one_zero (c : Prop) [Decidable c] :
    atoi (if c then "1" else "0") = if c then 1 else 0 := by
  by_cases hc : c <;> simp [hc, atoi_one, atoi_zero]

theorem not_isEmpty_of_ne_nil {α : Type} {l : List α} (h : l ≠ []) : (!l.isEmpty) = true := by
  cases l with
  | nil => exact absurd rfl h
  | cons a l => rfl

theorem runHandler_nil (st : HandlerState) : runHandler [] st = some st := rfl

theorem atoi_ite_zero_one (c : Prop) [Decidable c] :
    atoi (if c then "0" else "1") = if c then 0 else 1 := by
  by_cases hc : c <;> simp [hc, atoi_one, atoi_zero]

theorem ite_one_zero_bne_zero (b : Bool) : ((if b then (1 : Int) else 0) != 0) = b := by
  cases b <;> decide

theorem run_blocks (bs : List (List XmlEvent)) (fs : List (ProjectFileItem → ProjectFileItem))
    (h : List.Forall₂ (fun (b : List XmlEvent) (f : ProjectFileItem → ProjectFileItem) =>
        ∀ (prev : List ProjectFileItem) (cur : ProjectFileItem) (stack : List String),
          runHandler b { items := prev ++ [cur], stack := stack } =
          some { items := prev ++ [f cur], stack := stack }) bs fs)
    (prev : List ProjectFileItem) (cur : ProjectFileItem) (stack : List String) :
    runHandler bs.flatten { items := prev ++ [cur], stack := stack } =
    some { items := prev ++ [applyFuns fs cur], stack := stack } := by
  induction h generalizing cur with
  | nil => simp [runHandler, applyFuns]
  | cons h1 h2 ih =>
    rw [List.flatten_cons, runHandler_append, h1 prev cur stack, Option.some_bind, ih]
    simp [applyFuns]

theorem saveItemEvents_eq_blocks (item : ProjectFileItem) :
    saveItemEvents item = XmlEvent.startElement Paths_element_name ::
      ((itemBlocks item).flatten ++ [XmlEvent.endElement Paths_element_name]) := by
  simp [saveItemEvents, itemBlocks, List.append_assoc]

set_option maxHeartbeats 1600000 in
theorem itemFuns_sem (item : ProjectFileItem) :
    List.Forall₂ (fun (b : List XmlEvent) (f : ProjectFileItem → ProjectFileItem) =>
        ∀ (prev : List ProjectFileItem) (cur : ProjectFileItem) (stack : List String),
          runHandler b { items := prev ++ [cur], stack := stack } =
          some { items := prev ++ [f cur], stack := stack })
      (itemBlocks item) (itemFuns item) := by
  rw [itemBlocks, itemFuns]
  refine List.Forall₂.cons (fun prev cur stack => run_emitIf _ _ _ (by decide) prev cur stack) ?_
  refine List.Forall₂.cons (fun prev cur stack => run_emitIf _ _ _ (by decide) prev cur stack) ?_
  refine List.Forall₂.cons (fun prev cur stack => run_emitIf _ _ _ (by decide) prev cur stack) ?_
  refine List.Forall₂.cons (fun prev cur stack => run_emitIf _ _ _ (by decide) prev cur stack) ?_
  refine List.Forall₂.cons (fun prev cur stack => run_emitIf _ _ _ (by decide) prev cur stack) ?_
  refine List.Forall₂.cons (fun prev cur stack => run_writeElement _ _ (by decide) prev cur stack) ?_
  refine List.Forall₂.cons (fun prev cur stack => run_emitIf _ _ _ (by decide) prev cur stack) ?_
  refine List.Forall₂.cons (fun prev cur stack => run_writeElement _ _ (by decide) prev cur stack) ?_
  refine List.Forall₂.cons (fun prev cur stack => run_emitIf _ _ _ (by decide) prev cur stack) ?_
  refine List.Forall₂.cons (fun prev cur stack => run_emitIf _ _ _ (by decide) prev cur stack) ?_
  refine List.Forall₂.cons (fun prev cur stack => run_emitIf _ _ _ (by decide) prev cur stack) ?_
  refine List.Forall₂.cons (fun prev cur stack => run_emitIf _ _ _ (by decide) prev cur stack) ?_
  refine List.Forall₂.cons (fun prev cur stack => run_emitIf _ _ _ (by decide) prev cur stack) ?_
  refine List.Forall₂.cons (fun prev cur stack => run_emitIf _ _ _ (by decide) prev cur stack) ?_
  refine List.Forall₂.cons (fun prev cur stack => run_emitIf _ _ _ (by decide) prev cur stack) ?_
  refine List.Forall₂.cons (fun prev cur stack => run_emitIf _ _ _ (by decide) prev cur stack) ?_
  refine List.Forall₂.cons (fun prev cur stack => run_emitIf _ _ _ (by decide) prev cur stack) ?_
  refine List.Forall₂.cons (fun prev cur stack => run_emitIf _ _ _ (by decide) prev cur stack) ?_
  refine List.Forall₂.cons (fun prev cur stack => run_emitIf_hidden _ _ prev cur stack) ?_
  exact List.Forall₂.nil

set_option maxHeartbeats 3200000 in
theorem run_saveItem (item : ProjectFileItem) (h : saveAllFlags item)
    (prev : List ProjectFileItem) :
    runHandler (saveItemEvents item) { items := prev, stack := [Root_element_name] } =
    some { items := prev ++ [readBack item], stack := [Root_element_name] } := by
  obtain ⟨hp1, hp2, hp3, hp4, hp5, hp6, hp7, hp8, hp9, hp10, hp11, hp12⟩ := h
  rw [saveItemEvents_eq_blocks, runHandler_cons_start]
  have hstart : ProjectFileHandler.startElement Paths_element_name
      { items := prev, stack := [Root_element_name] } =
      { items := prev ++ [({} : ProjectFileItem)],
        stack := [Paths_element_name, Root_element_name] } := by
    simp [ProjectFileHandler.startElement]
  rw [hstart, runHandler_append, run_blocks _ _ (itemFuns_sem item), Option.some_bind,
    runHandler_single_end]
  have happ : applyFuns (itemFuns item) ({} : ProjectFileItem) = readBack item := by
    rw [itemFuns]
    by_cases hL : item.m_paths.m_left = "" <;>
    by_cases hM : item.m_paths.m_middle = "" <;>
    by_cases hR : item.m_paths.m_right = "" <;>
    by_cases hFi : item.m_filter = "" <;>
    by_cases hU : item.m_unpacker = "" <;>
    by_cases hPr : item.m_prediffer = "" <;>
    by_cases hH : item.m_vSavedHiddenItems = [] <;>
    simp [applyFuns, hL, hM, hR, hFi, hU, hPr, hH, hp1, hp2, hp3, hp4, hp5, hp6, hp7,
      hp8, hp9, hp10, hp11, hp12, charactersUpdate_left, charactersUpdate_middle,
      charactersUpdate_right, charactersUpdate_filter, charactersUpdate_subfolders,
      charactersUpdate_left_ro, charactersUpdate_middle_ro, charactersUpdate_right_ro,
      charactersUpdate_unpacker, charactersUpdate_prediffer, charactersUpdate_white_spaces,
      charactersUpdate_blank_lines, charactersUpdate_case, charactersUpdate_eol,
      charactersUpdate_numbers, charactersUpdate_codepage, charactersUpdate_comment,
      charactersUpdate_compare_method, readBack, PathContext.GetLeft, PathContext.GetMiddle,
      PathContext.GetRight, str_empty_append, atoi_std_to_string, atoi_bool_text,
      atoi_ite_one_zero, atoi_ite_zero_one, ite_one_zero_bne_zero, PathContext.ext_iff,
      not_isEmpty_of_ne_nil, atoi_one, atoi_zero, List.length_pos]
  rw [happ]

theorem run_saveAll (items : List ProjectFileItem) (h : ∀ it ∈ items, saveAllFlags it)
    (prev : List ProjectFileItem) :
    runHandler (items.flatMap saveItemEvents) { items := prev, stack := [Root_element_name] } =
    some { items := prev ++ items.map readBack, stack := [Root_element_name] } := by
  induction items generalizing prev with
  | nil => simp [runHandler]
  | cons it its ih =>
    rw [List.flatMap_cons, runHandler_append, run_saveItem it (h it (by simp)) prev,
      Option.some_bind, ih (fun x hx => h x (by simp [hx])) (prev ++ [readBack it])]
    simp

theorem runHandler_single (e : XmlEvent) (st : HandlerState) :
    runHandler [e] st = handlerStep st e := by
  cases h : handlerStep st e <;> simp [runHandler, h]

theorem run_characters_top (nodename token : String) (prev : List ProjectFileItem)
    (cur : ProjectFileItem) (stack : List String) :
    runHandler [XmlEvent.characters token]
      { items := prev ++ [cur], stack := nodename :: stack } =
    some { items := prev ++ [charactersUpdate nodename token cur],
           stack := nodename :: stack } := by
  simp [runHandler, handlerStep, ProjectFileHandler.characters, List.getLast?_concat,
    List.dropLast_concat]

theorem characters_cases (token : String) (st st' : HandlerState)
    (h : ProjectFileHandler.characters token st = some st') :
    (st' = st ∧ st.items = []) ∨
    ∃ cur nodename, st.items.getLast? = some cur ∧ st.stack.head? = some nodename ∧
      st' = { st with items := st.items.dropLast ++ [charactersUpdate nodename token cur] } := by
  unfold ProjectFileHandler.characters at h
  split at h
  · rename_i hguard
    cases h
    exact Or.inl ⟨rfl, List.length_eq_zero.mp hguard.2⟩
  · split at h
    · rename_i cur nodename hg hh
      cases h
      exact Or.inr ⟨cur, nodename, hg, hh, rfl⟩
    · exact Option.noConfusion h

theorem eq_dropLast_concat_of_getLast {α : Type} (l : List α) (a : α)
    (h : l.getLast? = some a) : l = l.dropLast ++ [a] := by
  have hne : l ≠ [] := by intro he; rw [he] at h; cases h
  have h2 : l.getLast? = some (l.getLast hne) := List.getLast?_eq_getLast l hne
  rw [h] at h2
  injection h2 with heq
  rw [heq]
  exact (List.dropLast_append_getLast hne).symm

theorem hasFlagForElement_default (n : String) :
    hasFlagForElement n ({} : ProjectFileItem) = false := by
  unfold hasFlagForElement
  by_cases k1 : n = Left_element_name
  · rw [if_pos k1]
  rw [if_neg k1]
  by_cases k2 : n = Middle_element_name
  · rw [if_pos k2]
  rw [if_neg k2]
  by_cases k3 : n = Right_element_name
  · rw [if_pos k3]
  rw [if_neg k3]
  by_cases k4 : n = Filter_element_name
  · rw [if_pos k4]
  rw [if_neg k4]
  by_cases k5 : n = Subfolders_element_name
  · rw [if_pos k5]
  rw [if_neg k5]
  by_cases k6 : n = Unpacker_element_name
  · rw [if_pos k6]
  rw [if_neg k6]
  by_cases k7 : n = Prediffer_element_name
  · rw [if_pos k7]
  rw [if_neg k7]
  by_cases k8 : n = White_spaces_element_name
  · rw [if_pos k8]
  rw [if_neg k8]
  by_cases k9 : n = Ignore_blank_lines_element_name
  · rw [if_pos k9]
  rw [if_neg k9]
  by_cases k10 : n = Ignore_case_element_name
  · rw [if_pos k10]
  rw [if_neg k10]
  by_cases k11 : n = Ignore_cr_diff_element_name
  · rw [if_pos k11]
  rw [if_neg k11]
  by_cases k12 : n = Ignore_numbers_element_name
  · rw [if_pos k12]
  rw [if_neg k12]
  by_cases k13 : n = Ignore_codepage_diff_element_name
  · rw [if_pos k13]
  rw [if_neg k13]
  by_cases k14 : n = Ignore_comment_diff_element_name
  · rw [if_pos k14]
  rw [if_neg k14]
  by_cases k15 : n = Compare_method_element_name
  · rw [if_pos k15]
  rw [if_neg k15]
  by_cases k16 : n = Hidden_items_element_name
  · rw [if_pos k16]
  rw [if_neg k16]

theorem charactersUpdate_hasLeft (nodename token : String) (cur : ProjectFileItem)
    (h : nodename ≠ Left_element_name) :
    (charactersUpdate nodename token cur).m_bHasLeft = cur.m_bHasLeft := by
  unfold charactersUpdate
  by_cases h1 : nodename = Left_element_name
  · exact absurd h1 h
  rw [if_neg h1]
  by_cases h2 : nodename = Middle_element_name
  · rw [if_pos h2]
  rw [if_neg h2]
  by_cases h3 : nodename = Right_element_name
  · rw [if_pos h3]
  rw [if_neg h3]
  by_cases h4 : nodename = Filter_element_name
  · rw [if_pos h4]
  rw [if_neg h4]
  by_cases h5 : nodename = Subfolders_element_name
  · rw [if_pos h5]
  rw [if_neg h5]
  by_cases h6 : nodename = Left_ro_element_name
  · rw [if_pos h6]
  rw [if_neg h6]
  by_cases h7 : nodename = Middle_ro_element_name
  · rw [if_pos h7]
  rw [if_neg h7]
  by_cases h8 : nodename = Right_ro_element_name
  · rw [if_pos h8]
  rw [if_neg h8]
  by_cases h9 : nodename = Unpacker_element_name
  · rw [if_pos h9]
  rw [if_neg h9]
  by_cases h10 : nodename = Prediffer_element_name
  · rw [if_pos h10]
  rw [if_neg h10]
  by_cases h11 : nodename = White_spaces_element_name
  · rw [if_pos h11]
  rw [if_neg h11]
  by_cases h12 : nodename = Ignore_blank_lines_element_name
  · rw [if_pos h12]
  rw [if_neg h12]
  by_cases h13 : nodename = Ignore_case_element_name
  · rw [if_pos h13]
  rw [if_neg h13]
  by_cases h14 : nodename = Ignore_cr_diff_element_name
  · rw [if_pos h14]
  rw [if_neg h14]
  by_cases h15 : nodename = Ignore_numbers_element_name
  · rw [if_pos h15]
  rw [if_neg h15]
  by_cases h16 : nodename = Ignore_codepage_diff_element_name
  · rw [if_pos h16]
  rw [if_neg h16]
  by_cases h17 : nodename = Ignore_comment_diff_element_name
  · rw [if_pos h17]
  rw [if_neg h17]
  by_cases h18 : nodename = Compare_method_element_name
  · rw [if_pos h18]
  rw [if_neg h18]
  by_cases h19 : nodename = Hidden_items_element_name
  · rw [if_pos h19]
  rw [if_neg h19]

theorem charactersUpdate_hasMiddle (nodename token : String) (cur : ProjectFileItem)
    (h : nodename ≠ Middle_element_name) :
    (charactersUpdate nodename token cur).m_bHasMiddle = cur.m_bHasMiddle := by
  unfold charactersUpdate
  by_cases h1 : nodename = Left_element_name
  · rw [if_pos h1]
  rw [if_neg h1]
  by_cases h2 : nodename = Middle_element_name
  · exact absurd h2 h
  rw [if_neg h2]
  by_cases h3 : nodename = Right_element_name
  · rw [if_pos h3]
  rw [if_neg h3]
  by_cases h4 : nodename = Filter_element_name
  · rw [if_pos h4]
  rw [if_neg h4]
  by_cases h5 : nodename = Subfolders_element_name
  · rw [if_pos h5]
  rw [if_neg h5]
  by_cases h6 : nodename = Left_ro_element_name
  · rw [if_pos h6]
  rw [if_neg h6]
  by_cases h7 : nodename = Middle_ro_element_name
  · rw [if_pos h7]
  rw [if_neg h7]
  by_cases h8 : nodename = Right_ro_element_name
  · rw [if_pos h8]
  rw [if_neg h8]
  by_cases h9 : nodename = Unpacker_element_name
  · rw [if_pos h9]
  rw [if_neg h9]
  by_cases h10 : nodename = Prediffer_element_name
  · rw [if_pos h10]
  rw [if_neg h10]
  by_cases h11 : nodename = White_spaces_element_name
  · rw [if_pos h11]
  rw [if_neg h11]
  by_cases h12 : nodename = Ignore_blank_lines_element_name
  · rw [if_pos h12]
  rw [if_neg h12]
  by_cases h13 : nodename = Ignore_case_element_name
  · rw [if_pos h13]
  rw [if_neg h13]
  by_cases h14 : nodename = Ignore_cr_diff_element_name
  · rw [if_pos h14]
  rw [if_neg h14]
  by_cases h15 : nodename = Ignore_numbers_element_name
  · rw [if_pos h15]
  rw [if_neg h15]
  by_cases h16 : nodename = Ignore_codepage_diff_element_name
  · rw [if_pos h16]
  rw [if_neg h16]
  by_cases h17 : nodename = Ignore_comment_diff_element_name
  · rw [if_pos h17]
  rw [if_neg h17]
  by_cases h18 : nodename = Compare_method_element_name
  · rw [if_pos h18]
  rw [if_neg h18]
  by_cases h19 : nodename = Hidden_items_element_name
  · rw [if_pos h19]
  rw [if_neg h19]

theorem charactersUpdate_hasRight (nodename token : String) (cur : ProjectFileItem)
    (h : nodename ≠ Right_element_name) :
    (charactersUpdate nodename token cur).m_bHasRight = cur.m_bHasRight := by
  unfold charactersUpdate
  by_cases h1 : nodename = Left_element_name
  · rw [if_pos h1]
  rw [if_neg h1]
  by_cases h2 : nodename = Middle_element_name
  · rw [if_pos h2]
  rw [if_neg h2]
  by_cases h3 : nodename = Right_element_name
  · exact absurd h3 h
  rw [if_neg h3]
  by_cases h4 : nodename = Filter_element_name
  · rw [if_pos h4]
  rw [if_neg h4]
  by_cases h5 : nodename = Subfolders_element_name
  · rw [if_pos h5]
  rw [if_neg h5]
  by_cases h6 : nodename = Left_ro_element_name
  · rw [if_pos h6]
  rw [if_neg h6]
  by_cases h7 : nodename = Middle_ro_element_name
  · rw [if_pos h7]
  rw [if_neg h7]
  by_cases h8 : nodename = Right_ro_element_name
  · rw [if_pos h8]
  rw [if_neg h8]
  by_cases h9 : nodename = Unpacker_element_name
  · rw [if_pos h9]
  rw [if_neg h9]
  by_cases h10 : nodename = Prediffer_element_name
  · rw [if_pos h10]
  rw [if_neg h10]
  by_cases h11 : nodename = White_spaces_element_name
  · rw [if_pos h11]
  rw [if_neg h11]
  by_cases h12 : nodename = Ignore_blank_lines_element_name
  · rw [if_pos h12]
  rw [if_neg h12]
  by_cases h13 : nodename = Ignore_case_element_name
  · rw [if_pos h13]
  rw [if_neg h13]
  by_cases h14 : nodename = Ignore_cr_diff_element_name
  · rw [if_pos h14]
  rw [if_neg h14]
  by_cases h15 : nodename = Ignore_numbers_element_name
  · rw [if_pos h15]
  rw [if_neg h15]
  by_cases h16 : nodename = Ignore_codepage_diff_element_name
  · rw [if_pos h16]
  rw [if_neg h16]
  by_cases h17 : nodename = Ignore_comment_diff_element_name
  · rw [if_pos h17]
  rw [if_neg h17]
  by_cases h18 : nodename = Compare_method_element_name
  · rw [if_pos h18]
  rw [if_neg h18]
  by_cases h19 : nodename = Hidden_items_element_name
  · rw [if_pos h19]
  rw [if_neg h19]

theorem charactersUpdate_hasFilter (nodename token : String) (cur : ProjectFileItem)
    (h : nodename ≠ Filter_element_name) :
    (charactersUpdate nodename token cur).m_bHasFilter = cur.m_bHasFilter := by
  unfold charactersUpdate
  by_cases h1 : nodename = Left_element_name
  · rw [if_pos h1]
  rw [if_neg h1]
  by_cases h2 : nodename = Middle_element_name
  · rw [if_pos h2]
  rw [if_neg h2]
  by_cases h3 : nodename = Right_element_name
  · rw [if_pos h3]
  rw [if_neg h3]
  by_cases h4 : nodename = Filter_element_name
  · exact absurd h4 h
  rw [if_neg h4]
  by_cases h5 : nodename = Subfolders_element_name
  · rw [if_pos h5]
  rw [if_neg h5]
  by_cases h6 : nodename = Left_ro_element_name
  · rw [if_pos h6]
  rw [if_neg h6]
  by_cases h7 : nodename = Middle_ro_element_name
  · rw [if_pos h7]
  rw [if_neg h7]
  by_cases h8 : nodename = Right_ro_element_name
  · rw [if_pos h8]
  rw [if_neg h8]
  by_cases h9 : nodename = Unpacker_element_name
  · rw [if_pos h9]
  rw [if_neg h9]
  by_cases h10 : nodename = Prediffer_element_name
  · rw [if_pos h10]
  rw [if_neg h10]
  by_cases h11 : nodename = White_spaces_element_name
  · rw [if_pos h11]
  rw [if_neg h11]
  by_cases h12 : nodename = Ignore_blank_lines_element_name
  · rw [if_pos h12]
  rw [if_neg h12]
  by_cases h13 : nodename = Ignore_case_element_name
  · rw [if_pos h13]
  rw [if_neg h13]
  by_cases h14 : nodename = Ignore_cr_diff_element_name
  · rw [if_pos h14]
  rw [if_neg h14]
  by_cases h15 : nodename = Ignore_numbers_element_name
  · rw [if_pos h15]
  rw [if_neg h15]
  by_cases h16 : nodename = Ignore_codepage_diff_element_name
  · rw [if_pos h16]
  rw [if_neg h16]
  by_cases h17 : nodename = Ignore_comment_diff_element_name
  · rw [if_pos h17]
  rw [if_neg h17]
  by_cases h18 : nodename = Compare_method_element_name
  · rw [if_pos h18]
  rw [if_neg h18]
  by_cases h19 : nodename = Hidden_items_element_name
  · rw [if_pos h19]
  rw [if_neg h19]

theorem charactersUpdate_hasSubfolders (nodename token : String) (cur : ProjectFileItem)
    (h : nodename ≠ Subfolders_element_name) :
    (charactersUpdate nodename token cur).m_bHasSubfolders = cur.m_bHasSubfolders := by
  unfold charactersUpdate
  by_cases h1 : nodename = Left_element_name
  · rw [if_pos h1]
  rw [if_neg h1]
  by_cases h2 : nodename = Middle_element_name
  · rw [if_pos h2]
  rw [if_neg h2]
  by_cases h3 : nodename = Right_element_name
  · rw [if_pos h3]
  rw [if_neg h3]
  by_cases h4 : nodename = Filter_element_name
  · rw [if_pos h4]
  rw [if_neg h4]
  by_cases h5 : nodename = Subfolders_element_name
  · exact absurd h5 h
  rw [if_neg h5]
  by_cases h6 : nodename = Left_ro_element_name
  · rw [if_pos h6]
  rw [if_neg h6]
  by_cases h7 : nodename = Middle_ro_element_name
  · rw [if_pos h7]
  rw [if_neg h7]
  by_cases h8 : nodename = Right_ro_element_name
  · rw [if_pos h8]
  rw [if_neg h8]
  by_cases h9 : nodename = Unpacker_element_name
  · rw [if_pos h9]
  rw [if_neg h9]
  by_cases h10 : nodename = Prediffer_element_name
  · rw [if_pos h10]
  rw [if_neg h10]
  by_cases h11 : nodename = White_spaces_element_name
  · rw [if_pos h11]
  rw [if_neg h11]
  by_cases h12 : nodename = Ignore_blank_lines_element_name
  · rw [if_pos h12]
  rw [if_neg h12]
  by_cases h13 : nodename = Ignore_case_element_name
  · rw [if_pos h13]
  rw [if_neg h13]
  by_cases h14 : nodename = Ignore_cr_diff_element_name
  · rw [if_pos h14]
  rw [if_neg h14]
  by_cases h15 : nodename = Ignore_numbers_element_name
  · rw [if_pos h15]
  rw [if_neg h15]
  by_cases h16 : nodename = Ignore_codepage_diff_element_name
  · rw [if_pos h16]
  rw [if_neg h16]
  by_cases h17 : nodename = Ignore_comment_diff_element_name
  · rw [if_pos h17]
  rw [if_neg h17]
  by_cases h18 : nodename = Compare_method_element_name
  · rw [if_pos h18]
  rw [if_neg h18]
  by_cases h19 : nodename = Hidden_items_element_name
  · rw [if_pos h19]
  rw [if_neg h19]

theorem charactersUpdate_hasUnpacker (nodename token : String) (cur : ProjectFileItem)
    (h : nodename ≠ Unpacker_element_name) :
    (charactersUpdate nodename token cur).m_bHasUnpacker = cur.m_bHasUnpacker := by
  unfold charactersUpdate
  by_cases h1 : nodename = Left_element_name
  · rw [if_pos h1]
  rw [if_neg h1]
  by_cases h2 : nodename = Middle_element_name
  · rw [if_pos h2]
  rw [if_neg h2]
  by_cases h3 : nodename = Right_element_name
  · rw [if_pos h3]
  rw [if_neg h3]
  by_cases h4 : nodename = Filter_element_name
  · rw [if_pos h4]
  rw [if_neg h4]
  by_cases h5 : nodename = Subfolders_element_name
  · rw [if_pos h5]
  rw [if_neg h5]
  by_cases h6 : nodename = Left_ro_element_name
  · rw [if_pos h6]
  rw [if_neg h6]
  by_cases h7 : nodename = Middle_ro_element_name
  · rw [if_pos h7]
  rw [if_neg h7]
  by_cases h8 : nodename = Right_ro_element_name
  · rw [if_pos h8]
  rw [if_neg h8]
  by_cases h9 : nodename = Unpacker_element_name
  · exact absurd h9 h
  rw [if_neg h9]
  by_cases h10 : nodename = Prediffer_element_name
  · rw [if_pos h10]
  rw [if_neg h10]
  by_cases h11 : nodename = White_spaces_element_name
  · rw [if_pos h11]
  rw [if_neg h11]
  by_cases h12 : nodename = Ignore_blank_lines_element_name
  · rw [if_pos h12]
  rw [if_neg h12]
  by_cases h13 : nodename = Ignore_case_element_name
  · rw [if_pos h13]
  rw [if_neg h13]
  by_cases h14 : nodename = Ignore_cr_diff_element_name
  · rw [if_pos h14]
  rw [if_neg h14]
  by_cases h15 : nodename = Ignore_numbers_element_name
  · rw [if_pos h15]
  rw [if_neg h15]
  by_cases h16 : nodename = Ignore_codepage_diff_element_name
  · rw [if_pos h16]
  rw [if_neg h16]
  by_cases h17 : nodename = Ignore_comment_diff_element_name
  · rw [if_pos h17]
  rw [if_neg h17]
  by_cases h18 : nodename = Compare_method_element_name
  · rw [if_pos h18]
  rw [if_neg h18]
  by_cases h19 : nodename = Hidden_items_element_name
  · rw [if_pos h19]
  rw [if_neg h19]

theorem charactersUpdate_hasPrediffer (nodename token : String) (cur : ProjectFileItem)
    (h : nodename ≠ Prediffer_element_name) :
    (charactersUpdate nodename token cur).m_bHasPrediffer = cur.m_bHasPrediffer := by
  unfold charactersUpdate
  by_cases h1 : nodename = Left_element_name
  · rw [if_pos h1]
  rw [if_neg h1]
  by_cases h2 : nodename = Middle_element_name
  · rw [if_pos h2]
  rw [if_neg h2]
  by_cases h3 : nodename = Right_element_name
  · rw [if_pos h3]
  rw [if_neg h3]
  by_cases h4 : nodename = Filter_element_name
  · rw [if_pos h4]
  rw [if_neg h4]
  by_cases h5 : nodename = Subfolders_element_name
  · rw [if_pos h5]
  rw [if_neg h5]
  by_cases h6 : nodename = Left_ro_element_name
  · rw [if_pos h6]
  rw [if_neg h6]
  by_cases h7 : nodename = Middle_ro_element_name
  · rw [if_pos h7]
  rw [if_neg h7]
  by_cases h8 : nodename = Right_ro_element_name
  · rw [if_pos h8]
  rw [if_neg h8]
  by_cases h9 : nodename = Unpacker_element_name
  · rw [if_pos h9]
  rw [if_neg h9]
  by_cases h10 : nodename = Prediffer_element_name
  · exact absurd h10 h
  rw [if_neg h10]
  by_cases h11 : nodename = White_spaces_element_name
  · rw [if_pos h11]
  rw [if_neg h11]
  by_cases h12 : nodename = Ignore_blank_lines_element_name
  · rw [if_pos h12]
  rw [if_neg h12]
  by_cases h13 : nodename = Ignore_case_element_name
  · rw [if_pos h13]
  rw [if_neg h13]
  by_cases h14 : nodename = Ignore_cr_diff_element_name
  · rw [if_pos h14]
  rw [if_neg h14]
  by_cases h15 : nodename = Ignore_numbers_element_name
  · rw [if_pos h15]
  rw [if_neg h15]
  by_cases h16 : nodename = Ignore_codepage_diff_element_name
  · rw [if_pos h16]
  rw [if_neg h16]
  by_cases h17 : nodename = Ignore_comment_diff_element_name
  · rw [if_pos h17]
  rw [if_neg h17]
  by_cases h18 : nodename = Compare_method_element_name
  · rw [if_pos h18]
  rw [if_neg h18]
  by_cases h19 : nodename = Hidden_items_element_name
  · rw [if_pos h19]
  rw [if_neg h19]

theorem charactersUpdate_hasIgnoreWhite (nodename token : String) (cur : ProjectFileItem)
    (h : nodename ≠ White_spaces_element_name) :
    (charactersUpdate nodename token cur).m_bHasIgnoreWhite = cur.m_bHasIgnoreWhite := by
  unfold charactersUpdate
  by_cases h1 : nodename = Left_element_name
  · rw [if_pos h1]
  rw [if_neg h1]
  by_cases h2 : nodename = Middle_element_name
  · rw [if_pos h2]
  rw [if_neg h2]
  by_cases h3 : nodename = Right_element_name
  · rw [if_pos h3]
  rw [if_neg h3]
  by_cases h4 : nodename = Filter_element_name
  · rw [if_pos h4]
  rw [if_neg h4]
  by_cases h5 : nodename = Subfolders_element_name
  · rw [if_pos h5]
  rw [if_neg h5]
  by_cases h6 : nodename = Left_ro_element_name
  · rw [if_pos h6]
  rw [if_neg h6]
  by_cases h7 : nodename = Middle_ro_element_name
  · rw [if_pos h7]
  rw [if_neg h7]
  by_cases h8 : nodename = Right_ro_element_name
  · rw [if_pos h8]
  rw [if_neg h8]
  by_cases h9 : nodename = Unpacker_element_name
  · rw [if_pos h9]
  rw [if_neg h9]
  by_cases h10 : nodename = Prediffer_element_name
  · rw [if_pos h10]
  rw [if_neg h10]
  by_cases h11 : nodename = White_spaces_element_name
  · exact absurd h11 h
  rw [if_neg h11]
  by_cases h12 : nodename = Ignore_blank_lines_element_name
  · rw [if_pos h12]
  rw [if_neg h12]
  by_cases h13 : nodename = Ignore_case_element_name
  · rw [if_pos h13]
  rw [if_neg h13]
  by_cases h14 : nodename = Ignore_cr_diff_element_name
  · rw [if_pos h14]
  rw [if_neg h14]
  by_cases h15 : nodename = Ignore_numbers_element_name
  · rw [if_pos h15]
  rw [if_neg h15]
  by_cases h16 : nodename = Ignore_codepage_diff_element_name
  · rw [if_pos h16]
  rw [if_neg h16]
  by_cases h17 : nodename = Ignore_comment_diff_element_name
  · rw [if_pos h17]
  rw [if_neg h17]
  by_cases h18 : nodename = Compare_method_element_name
  · rw [if_pos h18]
  rw [if_neg h18]
  by_cases h19 : nodename = Hidden_items_element_name
  · rw [if_pos h19]
  rw [if_neg h19]

theorem charactersUpdate_hasIgnoreBlankLines (nodename token : String) (cur : ProjectFileItem)
    (h : nodename ≠ Ignore_blank_lines_element_name) :
    (charactersUpdate nodename token cur).m_bHasIgnoreBlankLines = cur.m_bHasIgnoreBlankLines := by
  unfold charactersUpdate
  by_cases h1 : nodename = Left_element_name
  · rw [if_pos h1]
  rw [if_neg h1]
  by_cases h2 : nodename = Middle_element_name
  · rw [if_pos h2]
  rw [if_neg h2]
  by_cases h3 : nodename = Right_element_name
  · rw [if_pos h3]
  rw [if_neg h3]
  by_cases h4 : nodename = Filter_element_name
  · rw [if_pos h4]
  rw [if_neg h4]
  by_cases h5 : nodename = Subfolders_element_name
  · rw [if_pos h5]
  rw [if_neg h5]
  by_cases h6 : nodename = Left_ro_element_name
  · rw [if_pos h6]
  rw [if_neg h6]
  by_cases h7 : nodename = Middle_ro_element_name
  · rw [if_pos h7]
  rw [if_neg h7]
  by_cases h8 : nodename = Right_ro_element_name
  · rw [if_pos h8]
  rw [if_neg h8]
  by_cases h9 : nodename = Unpacker_element_name
  · rw [if_pos h9]
  rw [if_neg h9]
  by_cases h10 : nodename = Prediffer_element_name
  · rw [if_pos h10]
  rw [if_neg h10]
  by_cases h11 : nodename = White_spaces_element_name
  · rw [if_pos h11]
  rw [if_neg h11]
  by_cases h12 : nodename = Ignore_blank_lines_element_name
  · exact absurd h12 h
  rw [if_neg h12]
  by_cases h13 : nodename = Ignore_case_element_name
  · rw [if_pos h13]
  rw [if_neg h13]
  by_cases h14 : nodename = Ignore_cr_diff_element_name
  · rw [if_pos h14]
  rw [if_neg h14]
  by_cases h15 : nodename = Ignore_numbers_element_name
  · rw [if_pos h15]
  rw [if_neg h15]
  by_cases h16 : nodename = Ignore_codepage_diff_element_name
  · rw [if_pos h16]
  rw [if_neg h16]
  by_cases h17 : nodename = Ignore_comment_diff_element_name
  · rw [if_pos h17]
  rw [if_neg h17]
  by_cases h18 : nodename = Compare_method_element_name
  · rw [if_pos h18]
  rw [if_neg h18]
  by_cases h19 : nodename = Hidden_items_element_name
  · rw [if_pos h19]
  rw [if_neg h19]

theorem charactersUpdate_hasIgnoreCase (nodename token : String) (cur : ProjectFileItem)
    (h : nodename ≠ Ignore_case_element_name) :
    (charactersUpdate nodename token cur).m_bHasIgnoreCase = cur.m_bHasIgnoreCase := by
  unfold charactersUpdate
  by_cases h1 : nodename = Left_element_name
  · rw [if_pos h1]
  rw [if_neg h1]
  by_cases h2 : nodename = Middle_element_name
  · rw [if_pos h2]
  rw [if_neg h2]
  by_cases h3 : nodename = Right_element_name
  · rw [if_pos h3]
  rw [if_neg h3]
  by_cases h4 : nodename = Filter_element_name
  · rw [if_pos h4]
  rw [if_neg h4]
  by_cases h5 : nodename = Subfolders_element_name
  · rw [if_pos h5]
  rw [if_neg h5]
  by_cases h6 : nodename = Left_ro_element_name
  · rw [if_pos h6]
  rw [if_neg h6]
  by_cases h7 : nodename = Middle_ro_element_name
  · rw [if_pos h7]
  rw [if_neg h7]
  by_cases h8 : nodename = Right_ro_element_name
  · rw [if_pos h8]
  rw [if_neg h8]
  by_cases h9 : nodename = Unpacker_element_name
  · rw [if_pos h9]
  rw [if_neg h9]
  by_cases h10 : nodename = Prediffer_element_name
  · rw [if_pos h10]
  rw [if_neg h10]
  by_cases h11 : nodename = White_spaces_element_name
  · rw [if_pos h11]
  rw [if_neg h11]
  by_cases h12 : nodename = Ignore_blank_lines_element_name
  · rw [if_pos h12]
  rw [if_neg h12]
  by_cases h13 : nodename = Ignore_case_element_name
  · exact absurd h13 h
  rw [if_neg h13]
  by_cases h14 : nodename = Ignore_cr_diff_element_name
  · rw [if_pos h14]
  rw [if_neg h14]
  by_cases h15 : nodename = Ignore_numbers_element_name
  · rw [if_pos h15]
  rw [if_neg h15]
  by_cases h16 : nodename = Ignore_codepage_diff_element_name
  · rw [if_pos h16]
  rw [if_neg h16]
  by_cases h17 : nodename = Ignore_comment_diff_element_name
  · rw [if_pos h17]
  rw [if_neg h17]
  by_cases h18 : nodename = Compare_method_element_name
  · rw [if_pos h18]
  rw [if_neg h18]
  by_cases h19 : nodename = Hidden_items_element_name
  · rw [if_pos h19]
  rw [if_neg h19]

theorem charactersUpdate_hasIgnoreEol (nodename token : String) (cur : ProjectFileItem)
    (h : nodename ≠ Ignore_cr_diff_element_name) :
    (charactersUpdate nodename token cur).m_bHasIgnoreEol = cur.m_bHasIgnoreEol := by
  unfold charactersUpdate
  by_cases h1 : nodename = Left_element_name
  · rw [if_pos h1]
  rw [if_neg h1]
  by_cases h2 : nodename = Middle_element_name
  · rw [if_pos h2]
  rw [if_neg h2]
  by_cases h3 : nodename = Right_element_name
  · rw [if_pos h3]
  rw [if_neg h3]
  by_cases h4 : nodename = Filter_element_name
  · rw [if_pos h4]
  rw [if_neg h4]
  by_cases h5 : nodename = Subfolders_element_name
  · rw [if_pos h5]
  rw [if_neg h5]
  by_cases h6 : nodename = Left_ro_element_name
  · rw [if_pos h6]
  rw [if_neg h6]
  by_cases h7 : nodename = Middle_ro_element_name
  · rw [if_pos h7]
  rw [if_neg h7]
  by_cases h8 : nodename = Right_ro_element_name
  · rw [if_pos h8]
  rw [if_neg h8]
  by_cases h9 : nodename = Unpacker_element_name
  · rw [if_pos h9]
  rw [if_neg h9]
  by_cases h10 : nodename = Prediffer_element_name
  · rw [if_pos h10]
  rw [if_neg h10]
  by_cases h11 : nodename = White_spaces_element_name
  · rw [if_pos h11]
  rw [if_neg h11]
  by_cases h12 : nodename = Ignore_blank_lines_element_name
  · rw [if_pos h12]
  rw [if_neg h12]
  by_cases h13 : nodename = Ignore_case_element_name
  · rw [if_pos h13]
  rw [if_neg h13]
  by_cases h14 : nodename = Ignore_cr_diff_element_name
  · exact absurd h14 h
  rw [if_neg h14]
  by_cases h15 : nodename = Ignore_numbers_element_name
  · rw [if_pos h15]
  rw [if_neg h15]
  by_cases h16 : nodename = Ignore_codepage_diff_element_name
  · rw [if_pos h16]
  rw [if_neg h16]
  by_cases h17 : nodename = Ignore_comment_diff_element_name
  · rw [if_pos h17]
  rw [if_neg h17]
  by_cases h18 : nodename = Compare_method_element_name
  · rw [if_pos h18]
  rw [if_neg h18]
  by_cases h19 : nodename = Hidden_items_element_name
  · rw [if_pos h19]
  rw [if_neg h19]

theorem charactersUpdate_hasIgnoreNumbers (nodename token : String) (cur : ProjectFileItem)
    (h : nodename ≠ Ignore_numbers_element_name) :
    (charactersUpdate nodename token cur).m_bHasIgnoreNumbers = cur.m_bHasIgnoreNumbers := by
  unfold charactersUpdate
  by_cases h1 : nodename = Left_element_name
  · rw [if_pos h1]
  rw [if_neg h1]
  by_cases h2 : nodename = Middle_element_name
  · rw [if_pos h2]
  rw [if_neg h2]
  by_cases h3 : nodename = Right_element_name
  · rw [if_pos h3]
  rw [if_neg h3]
  by_cases h4 : nodename = Filter_element_name
  · rw [if_pos h4]
  rw [if_neg h4]
  by_cases h5 : nodename = Subfolders_element_name
  · rw [if_pos h5]
  rw [if_neg h5]
  by_cases h6 : nodename = Left_ro_element_name
  · rw [if_pos h6]
  rw [if_neg h6]
  by_cases h7 : nodename = Middle_ro_element_name
  · rw [if_pos h7]
  rw [if_neg h7]
  by_cases h8 : nodename = Right_ro_element_name
  · rw [if_pos h8]
  rw [if_neg h8]
  by_cases h9 : nodename = Unpacker_element_name
  · rw [if_pos h9]
  rw [if_neg h9]
  by_cases h10 : nodename = Prediffer_element_name
  · rw [if_pos h10]
  rw [if_neg h10]
  by_cases h11 : nodename = White_spaces_element_name
  · rw [if_pos h11]
  rw [if_neg h11]
  by_cases h12 : nodename = Ignore_blank_lines_element_name
  · rw [if_pos h12]
  rw [if_neg h12]
  by_cases h13 : nodename = Ignore_case_element_name
  · rw [if_pos h13]
  rw [if_neg h13]
  by_cases h14 : nodename = Ignore_cr_diff_element_name
  · rw [if_pos h14]
  rw [if_neg h14]
  by_cases h15 : nodename = Ignore_numbers_element_name
  · exact absurd h15 h
  rw [if_neg h15]
  by_cases h16 : nodename = Ignore_codepage_diff_element_name
  · rw [if_pos h16]
  rw [if_neg h16]
  by_cases h17 : nodename = Ignore_comment_diff_element_name
  · rw [if_pos h17]
  rw [if_neg h17]
  by_cases h18 : nodename = Compare_method_element_name
  · rw [if_pos h18]
  rw [if_neg h18]
  by_cases h19 : nodename = Hidden_items_element_name
  · rw [if_pos h19]
  rw [if_neg h19]

theorem charactersUpdate_hasIgnoreCodepage (nodename token : String) (cur : ProjectFileItem)
    (h : nodename ≠ Ignore_codepage_diff_element_name) :
    (charactersUpdate nodename token cur).m_bHasIgnoreCodepage = cur.m_bHasIgnoreCodepage := by
  unfold charactersUpdate
  by_cases h1 : nodename = Left_element_name
  · rw [if_pos h1]
  rw [if_neg h1]
  by_cases h2 : nodename = Middle_element_name
  · rw [if_pos h2]
  rw [if_neg h2]
  by_cases h3 : nodename = Right_element_name
  · rw [if_pos h3]
  rw [if_neg h3]
  by_cases h4 : nodename = Filter_element_name
  · rw [if_pos h4]
  rw [if_neg h4]
  by_cases h5 : nodename = Subfolders_element_name
  · rw [if_pos h5]
  rw [if_neg h5]
  by_cases h6 : nodename = Left_ro_element_name
  · rw [if_pos h6]
  rw [if_neg h6]
  by_cases h7 : nodename = Middle_ro_element_name
  · rw [if_pos h7]
  rw [if_neg h7]
  by_cases h8 : nodename = Right_ro_element_name
  · rw [if_pos h8]
  rw [if_neg h8]
  by_cases h9 : nodename = Unpacker_element_name
  · rw [if_pos h9]
  rw [if_neg h9]
  by_cases h10 : nodename = Prediffer_element_name
  · rw [if_pos h10]
  rw [if_neg h10]
  by_cases h11 : nodename = White_spaces_element_name
  · rw [if_pos h11]
  rw [if_neg h11]
  by_cases h12 : nodename = Ignore_blank_lines_element_name
  · rw [if_pos h12]
  rw [if_neg h12]
  by_cases h13 : nodename = Ignore_case_element_name
  · rw [if_pos h13]
  rw [if_neg h13]
  by_cases h14 : nodename = Ignore_cr_diff_element_name
  · rw [if_pos h14]
  rw [if_neg h14]
  by_cases h15 : nodename = Ignore_numbers_element_name
  · rw [if_pos h15]
  rw [if_neg h15]
  by_cases h16 : nodename = Ignore_codepage_diff_element_name
  · exact absurd h16 h
  rw [if_neg h16]
  by_cases h17 : nodename = Ignore_comment_diff_element_name
  · rw [if_pos h17]
  rw [if_neg h17]
  by_cases h18 : nodename = Compare_method_element_name
  · rw [if_pos h18]
  rw [if_neg h18]
  by_cases h19 : nodename = Hidden_items_element_name
  · rw [if_pos h19]
  rw [if_neg h19]

theorem charactersUpdate_hasFilterCommentsLines (nodename token : String) (cur : ProjectFileItem)
    (h : nodename ≠ Ignore_comment_diff_element_name) :
    (charactersUpdate nodename token cur).m_bHasFilterCommentsLines = cur.m_bHasFilterCommentsLines := by
  unfold charactersUpdate
  by_cases h1 : nodename = Left_element_name
  · rw [if_pos h1]
  rw [if_neg h1]
  by_cases h2 : nodename = Middle_element_name
  · rw [if_pos h2]
  rw [if_neg h2]
  by_cases h3 : nodename = Right_element_name
  · rw [if_pos h3]
  rw [if_neg h3]
  by_cases h4 : nodename = Filter_element_name
  · rw [if_pos h4]
  rw [if_neg h4]
  by_cases h5 : nodename = Subfolders_element_name
  · rw [if_pos h5]
  rw [if_neg h5]
  by_cases h6 : nodename = Left_ro_element_name
  · rw [if_pos h6]
  rw [if_neg h6]
  by_cases h7 : nodename = Middle_ro_element_name
  · rw [if_pos h7]
  rw [if_neg h7]
  by_cases h8 : nodename = Right_ro_element_name
  · rw [if_pos h8]
  rw [if_neg h8]
  by_cases h9 : nodename = Unpacker_element_name
  · rw [if_pos h9]
  rw [if_neg h9]
  by_cases h10 : nodename = Prediffer_element_name
  · rw [if_pos h10]
  rw [if_neg h10]
  by_cases h11 : nodename = White_spaces_element_name
  · rw [if_pos h11]
  rw [if_neg h11]
  by_cases h12 : nodename = Ignore_blank_lines_element_name
  · rw [if_pos h12]
  rw [if_neg h12]
  by_cases h13 : nodename = Ignore_case_element_name
  · rw [if_pos h13]
  rw [if_neg h13]
  by_cases h14 : nodename = Ignore_cr_diff_element_name
  · rw [if_pos h14]
  rw [if_neg h14]
  by_cases h15 : nodename = Ignore_numbers_element_name
  · rw [if_pos h15]
  rw [if_neg h15]
  by_cases h16 : nodename = Ignore_codepage_diff_element_name
  · rw [if_pos h16]
  rw [if_neg h16]
  by_cases h17 : nodename = Ignore_comment_diff_element_name
  · exact absurd h17 h
  rw [if_neg h17]
  by_cases h18 : nodename = Compare_method_element_name
  · rw [if_pos h18]
  rw [if_neg h18]
  by_cases h19 : nodename = Hidden_items_element_name
  · rw [if_pos h19]
  rw [if_neg h19]

theorem charactersUpdate_hasCompareMethod (nodename token : String) (cur : ProjectFileItem)
    (h : nodename ≠ Compare_method_element_name) :
    (charactersUpdate nodename token cur).m_bHasCompareMethod = cur.m_bHasCompareMethod := by
  unfold charactersUpdate
  by_cases h1 : nodename = Left_element_name
  · rw [if_pos h1]
  rw [if_neg h1]
  by_cases h2 : nodename = Middle_element_name
  · rw [if_pos h2]
  rw [if_neg h2]
  by_cases h3 : nodename = Right_element_name
  · rw [if_pos h3]
  rw [if_neg h3]
  by_cases h4 : nodename = Filter_element_name
  · rw [if_pos h4]
  rw [if_neg h4]
  by_cases h5 : nodename = Subfolders_element_name
  · rw [if_pos h5]
  rw [if_neg h5]
  by_cases h6 : nodename = Left_ro_element_name
  · rw [if_pos h6]
  rw [if_neg h6]
  by_cases h7 : nodename = Middle_ro_element_name
  · rw [if_pos h7]
  rw [if_neg h7]
  by_cases h8 : nodename = Right_ro_element_name
  · rw [if_pos h8]
  rw [if_neg h8]
  by_cases h9 : nodename = Unpacker_element_name
  · rw [if_pos h9]
  rw [if_neg h9]
  by_cases h10 : nodename = Prediffer_element_name
  · rw [if_pos h10]
  rw [if_neg h10]
  by_cases h11 : nodename = White_spaces_element_name
  · rw [if_pos h11]
  rw [if_neg h11]
  by_cases h12 : nodename = Ignore_blank_lines_element_name
  · rw [if_pos h12]
  rw [if_neg h12]
  by_cases h13 : nodename = Ignore_case_element_name
  · rw [if_pos h13]
  rw [if_neg h13]
  by_cases h14 : nodename = Ignore_cr_diff_element_name
  · rw [if_pos h14]
  rw [if_neg h14]
  by_cases h15 : nodename = Ignore_numbers_element_name
  · rw [if_pos h15]
  rw [if_neg h15]
  by_cases h16 : nodename = Ignore_codepage_diff_element_name
  · rw [if_pos h16]
  rw [if_neg h16]
  by_cases h17 : nodename = Ignore_comment_diff_element_name
  · rw [if_pos h17]
  rw [if_neg h17]
  by_cases h18 : nodename = Compare_method_element_name
  · exact absurd h18 h
  rw [if_neg h18]
  by_cases h19 : nodename = Hidden_items_element_name
  · rw [if_pos h19]
  rw [if_neg h19]

theorem charactersUpdate_hasHiddenItems (nodename token : String) (cur : ProjectFileItem)
    (h : nodename ≠ Hidden_items_element_name) :
    (charactersUpdate nodename token cur).m_bHasHiddenItems = cur.m_bHasHiddenItems := by
  unfold charactersUpdate
  by_cases h1 : nodename = Left_element_name
  · rw [if_pos h1]
  rw [if_neg h1]
  by_cases h2 : nodename = Middle_element_name
  · rw [if_pos h2]
  rw [if_neg h2]
  by_cases h3 : nodename = Right_element_name
  · rw [if_pos h3]
  rw [if_neg h3]
  by_cases h4 : nodename = Filter_element_name
  · rw [if_pos h4]
  rw [if_neg h4]
  by_cases h5 : nodename = Subfolders_element_name
  · rw [if_pos h5]
  rw [if_neg h5]
  by_cases h6 : nodename = Left_ro_element_name
  · rw [if_pos h6]
  rw [if_neg h6]
  by_cases h7 : nodename = Middle_ro_element_name
  · rw [if_pos h7]
  rw [if_neg h7]
  by_cases h8 : nodename = Right_ro_element_name
  · rw [if_pos h8]
  rw [if_neg h8]
  by_cases h9 : nodename = Unpacker_element_name
  · rw [if_pos h9]
  rw [if_neg h9]
  by_cases h10 : nodename = Prediffer_element_name
  · rw [if_pos h10]
  rw [if_neg h10]
  by_cases h11 : nodename = White_spaces_element_name
  · rw [if_pos h11]
  rw [if_neg h11]
  by_cases h12 : nodename = Ignore_blank_lines_element_name
  · rw [if_pos h12]
  rw [if_neg h12]
  by_cases h13 : nodename = Ignore_case_element_name
  · rw [if_pos h13]
  rw [if_neg h13]
  by_cases h14 : nodename = Ignore_cr_diff_element_name
  · rw [if_pos h14]
  rw [if_neg h14]
  by_cases h15 : nodename = Ignore_numbers_element_name
  · rw [if_pos h15]
  rw [if_neg h15]
  by_cases h16 : nodename = Ignore_codepage_diff_element_name
  · rw [if_pos h16]
  rw [if_neg h16]
  by_cases h17 : nodename = Ignore_comment_diff_element_name
  · rw [if_pos h17]
  rw [if_neg h17]
  by_cases h18 : nodename = Compare_method_element_name
  · rw [if_pos h18]
  rw [if_neg h18]
  by_cases h19 : nodename = Hidden_items_element_name
  · exact absurd h19 h
  rw [if_neg h19]

theorem charactersUpdate_hasFlag_other (n nodename token : String) (cur : ProjectFileItem)
    (hne : n ≠ nodename) :
    hasFlagForElement n (charactersUpdate nodename token cur) = hasFlagForElement n cur := by
  unfold hasFlagForElement
  by_cases k1 : n = Left_element_name
  · simp only [if_pos k1]
    exact charactersUpdate_hasLeft nodename token cur (fun h => hne (by rw [k1, h]))
  simp only [if_neg k1]
  by_cases k2 : n = Middle_element_name
  · simp only [if_pos k2]
    exact charactersUpdate_hasMiddle nodename token cur (fun h => hne (by rw [k2, h]))
  simp only [if_neg k2]
  by_cases k3 : n = Right_element_name
  · simp only [if_pos k3]
    exact charactersUpdate_hasRight nodename token cur (fun h => hne (by rw [k3, h]))
  simp only [if_neg k3]
  by_cases k4 : n = Filter_element_name
  · simp only [if_pos k4]
    exact charactersUpdate_hasFilter nodename token cur (fun h => hne (by rw [k4, h]))
  simp only [if_neg k4]
  by_cases k5 : n = Subfolders_element_name
  · simp only [if_pos k5]
    exact charactersUpdate_hasSubfolders nodename token cur (fun h => hne (by rw [k5, h]))
  simp only [if_neg k5]
  by_cases k6 : n = Unpacker_element_name
  · simp only [if_pos k6]
    exact charactersUpdate_hasUnpacker nodename token cur (fun h => hne (by rw [k6, h]))
  simp only [if_neg k6]
  by_cases k7 : n = Prediffer_element_name
  · simp only [if_pos k7]
    exact charactersUpdate_hasPrediffer nodename token cur (fun h => hne (by rw [k7, h]))
  simp only [if_neg k7]
  by_cases k8 : n = White_spaces_element_name
  · simp only [if_pos k8]
    exact charactersUpdate_hasIgnoreWhite nodename token cur (fun h => hne (by rw [k8, h]))
  simp only [if_neg k8]
  by_cases k9 : n = Ignore_blank_lines_element_name
  · simp only [if_pos k9]
    exact charactersUpdate_hasIgnoreBlankLines nodename token cur (fun h => hne (by rw [k9, h]))
  simp only [if_neg k9]
  by_cases k10 : n = Ignore_case_element_name
  · simp only [if_pos k10]
    exact charactersUpdate_hasIgnoreCase nodename token cur (fun h => hne (by rw [k10, h]))
  simp only [if_neg k10]
  by_cases k11 : n = Ignore_cr_diff_element_name
  · simp only [if_pos k11]
    exact charactersUpdate_hasIgnoreEol nodename token cur (fun h => hne (by rw [k11, h]))
  simp only [if_neg k11]
  by_cases k12 : n = Ignore_numbers_element_name
  · simp only [if_pos k12]
    exact charactersUpdate_hasIgnoreNumbers nodename token cur (fun h => hne (by rw [k12, h]))
  simp only [if_neg k12]
  by_cases k13 : n = Ignore_codepage_diff_element_name
  · simp only [if_pos k13]
    exact charactersUpdate_hasIgnoreCodepage nodename token cur (fun h => hne (by rw [k13, h]))
  simp only [if_neg k13]
  by_cases k14 : n = Ignore_comment_diff_element_name
  · simp only [if_pos k14]
    exact charactersUpdate_hasFilterCommentsLines nodename token cur (fun h => hne (by rw [k14, h]))
  simp only [if_neg k14]
  by_cases k15 : n = Compare_method_element_name
  · simp only [if_pos k15]
    exact charactersUpdate_hasCompareMethod nodename token cur (fun h => hne (by rw [k15, h]))
  simp only [if_neg k15]
  by_cases k16 : n = Hidden_items_element_name
  · simp only [if_pos k16]
    exact charactersUpdate_hasHiddenItems nodename token cur (fun h => hne (by rw [k16, h]))
  simp only [if_neg k16]

theorem charactersUpdate_hasFlag_self (nodename token : String) (cur : ProjectFileItem)
    (hmem : nodename ∈ hasElementNames) :
    hasFlagForElement nodename (charactersUpdate nodename token cur) = true := by
  simp only [hasElementNames, List.mem_cons, List.not_mem_nil, or_false] at hmem
  rcases hmem with rfl | rfl | rfl | rfl | rfl | rfl | rfl | rfl | rfl | rfl | rfl | rfl | rfl | rfl | rfl | rfl <;> rfl
theorem elementText_cons_start_ne (tag t : String) (h : t ≠ tag) (rest : List XmlEvent) :
    elementText tag (XmlEvent.startElement t :: rest) = elementText tag rest := by
  simp [elementText, h]

theorem elementText_cons_end (tag t : String) (rest : List XmlEvent) :
    elementText tag (XmlEvent.endElement t :: rest) = elementText tag rest := by
  simp [elementText]

theorem elementText_writeElement_append (tag tag2 txt : String) (rest : List XmlEvent) :
    elementText tag (writeElement tag2 txt ++ rest) =
    if tag2 = tag then some txt else elementText tag rest := by
  by_cases h : tag2 = tag <;>
    simp [writeElement, elementText, elementTextAux, h]

theorem elementText_emitIf_append (c : Prop) [Decidable c] (tag tag2 txt : String)
    (h : tag2 ≠ tag) (rest : List XmlEvent) :
    elementText tag ((if c then writeElement tag2 txt else []) ++ rest) =
    elementText tag rest := by
  by_cases hc : c
  · rw [if_pos hc, elementText_writeElement_append, if_neg h]
  · rw [if_neg hc, List.nil_append]

theorem elementText_hiddenLoop_append (tag : String) (h2 : tag ≠ Hidden_items_element_name)
    (hs : List String) (rest : List XmlEvent) :
    elementText tag ((hs.flatMap fun x => writeElement Hidden_items_element_name x) ++ rest) =
    elementText tag rest := by
  induction hs with
  | nil => simp
  | cons a as ih =>
    rw [List.flatMap_cons, List.append_assoc, elementText_writeElement_append,
      if_neg (fun he => h2 he.symm)]
    exact ih

theorem elementText_hidden_append (tag : String) (h1 : tag ≠ Hidden_list_element_name)
    (h2 : tag ≠ Hidden_items_element_name) (hs : List String) (rest : List XmlEvent) :
    elementText tag (saveHiddenItems hs ++ rest) = elementText tag rest := by
  have hsh : saveHiddenItems hs ++ rest = XmlEvent.startElement Hidden_list_element_name ::
      ((hs.flatMap fun x => writeElement Hidden_items_element_name x) ++
        ([XmlEvent.endElement Hidden_list_element_name] ++ rest)) := by
    simp [saveHiddenItems]
  rw [hsh, elementText_cons_start_ne _ _ (fun he => h1 he.symm),
    elementText_hiddenLoop_append _ h2, List.singleton_append, elementText_cons_end]

theorem elementText_emitIf_hidden_append (c : Prop) [Decidable c] (tag : String)
    (h1 : tag ≠ Hidden_list_element_name) (h2 : tag ≠ Hidden_items_element_name)
    (hs : List String) (rest : List XmlEvent) :
    elementText tag ((if c then saveHiddenItems hs else []) ++ rest) =
    elementText tag rest := by
  by_cases hc : c
  · rw [if_pos hc]; exact elementText_hidden_append tag h1 h2 hs rest
  · rw [if_neg hc, List.nil_append]

theorem characters_prepend (t : String) (items0 itemsN : List ProjectFileItem)
    (stack : List String) (h : itemsN ≠ []) :
    ProjectFileHandler.characters t { items := items0 ++ itemsN, stack := stack } =
    (ProjectFileHandler.characters t { items := itemsN, stack := stack }).map
      (fun st => { items := items0 ++ st.items, stack := st.stack }) := by
  obtain ⟨cur, hg⟩ := Option.isSome_iff_exists.mp (List.getLast?_isSome.mpr h)
  unfold ProjectFileHandler.characters
  rw [if_neg (by simp [List.length_eq_zero, h]), if_neg (by simp [List.length_eq_zero, h])]
  dsimp only
  rw [List.getLast?_append_of_ne_nil _ h, hg]
  cases hh : stack.head? with
  | none => rfl
  | some nodename => simp [List.dropLast_append_of_ne_nil _ h]

theorem runHandler_prepend (ev : List XmlEvent) (items0 itemsN : List ProjectFileItem)
    (stack : List String) (h : itemsN ≠ []) :
    runHandler ev { items := items0 ++ itemsN, stack := stack } =
    (runHandler ev { items := itemsN, stack := stack }).map
      (fun st => { items := items0 ++ st.items, stack := st.stack }) := by
  induction ev generalizing itemsN stack with
  | nil => simp [runHandler]
  | cons e rest ih =>
    cases e with
    | startElement n =>
      rw [runHandler_cons_start, runHandler_cons_start]
      unfold ProjectFileHandler.startElement
      by_cases hn : n = Paths_element_name
      · rw [if_pos hn, if_pos hn, List.append_assoc]
        exact ih (itemsN ++ [({} : ProjectFileItem)]) (n :: stack) (by simp)
      · rw [if_neg hn, if_neg hn]
        exact ih itemsN (n :: stack) h
    | endElement n =>
      cases stack with
      | nil => simp [runHandler, handlerStep, ProjectFileHandler.endElement]
      | cons top rest2 =>
        have hrw : ∀ (its : List ProjectFileItem),
            runHandler (XmlEvent.endElement n :: rest) { items := its, stack := top :: rest2 } =
            runHandler rest { items := its, stack := rest2 } := by
          intro its
          simp [runHandler, handlerStep, ProjectFileHandler.endElement]
        rw [hrw, hrw]
        exact ih itemsN rest2 h
    | characters t =>
      have hrw : ∀ (its : List ProjectFileItem),
          runHandler (XmlEvent.characters t :: rest) { items := its, stack := stack } =
          (ProjectFileHandler.characters t { items := its, stack := stack }).bind
            (runHandler rest) := fun _ => rfl
      rw [hrw, hrw, characters_prepend t items0 itemsN stack h]
      cases ho : ProjectFileHandler.characters t { items := itemsN, stack := stack } with
      | none => simp
      | some st2 =>
        have h2 : st2.items ≠ [] := by
          rcases characters_cases t _ _ ho with ⟨rfl, he⟩ | ⟨cur, nodename, hg, hh, hst⟩
          · exact absurd he h
          · rw [hst]; simp
        simp only [Option.map_some', Option.some_bind]
        have hr := ih st2.items st2.stack h2
        simpa using hr

theorem runHandler_noText (ev : List XmlEvent) (items0 : List ProjectFileItem)
    (stack : List String) (h : noTextBeforePaths ev = true) :
    runHandler ev { items := items0, stack := stack } =
    (runHandler ev { items := [], stack := stack }).map
      (fun st => { items := items0 ++ st.items, stack := st.stack }) := by
  induction ev generalizing stack with
  | nil => simp [runHandler]
  | cons e rest ih =>
    cases e with
    | startElement n =>
      rw [runHandler_cons_start, runHandler_cons_start]
      unfold ProjectFileHandler.startElement
      by_cases hn : n = Paths_element_name
      · rw [if_pos hn, if_pos hn]
        rw [show ([] : List ProjectFileItem) ++ [({} : ProjectFileItem)] =
          [({} : ProjectFileItem)] from rfl]
        exact runHandler_prepend rest items0 [({} : ProjectFileItem)] (n :: stack) (by simp)
      · rw [if_neg hn, if_neg hn]
        have hrest : noTextBeforePaths rest = true := by
          simpa [noTextBeforePaths, hn] using h
        exact ih (n :: stack) hrest
    | endElement n =>
      have hrest : noTextBeforePaths rest = true := by
        simpa [noTextBeforePaths] using h
      cases stack with
      | nil => simp [runHandler, handlerStep, ProjectFileHandler.endElement]
      | cons top rest2 =>
        have hrw : ∀ (its : List ProjectFileItem),
            runHandler (XmlEvent.endElement n :: rest) { items := its, stack := top :: rest2 } =
            runHandler rest { items := its, stack := rest2 } := by
          intro its
          simp [runHandler, handlerStep, ProjectFileHandler.endElement]
        rw [hrw, hrw]
        exact ih rest2 hrest
    | characters t =>
      simp [noTextBeforePaths] at h

/-! # Claim theorems -/

/-- C1 counterexample: the default-constructed entry has all twelve persist
flags true and every option "has" flag false, yet writing it with Save and
reading the event stream back yields an entry with every option "has" flag
true (and the -1 subfolders sentinel read back as 1) — so the round trip is
not the identity on the comparison options' has flags, refuting the claim as
stated. -/
theorem C1_has_flags_counterexample :
    saveAllFlags ({} : ProjectFileItem) ∧
    ({} : ProjectFileItem).m_bHasIgnoreWhite = false ∧
    runHandler (ProjectFile.SaveEvents [({} : ProjectFileItem)])
        { items := [], stack := [] } =
      some { items := [{ m_subfolders := 1, m_bHasSubfolders := true,
                         m_bHasIgnoreWhite := true, m_bHasIgnoreBlankLines := true,
                         m_bHasIgnoreCase := true, m_bHasIgnoreEol := true,
                         m_bHasIgnoreNumbers := true, m_bHasIgnoreCodepage := true,
                         m_bHasFilterCommentsLines := true, m_bHasCompareMethod := true }],
             stack := [] } := by
  refine ⟨by decide, rfl, by decide⟩

/-- C1 (amended): for a document whose entries all have every persist flag
set, Save followed by Read yields exactly `items.map readBack`, in order; the
read-back entry agrees with the original on every path string, the
filter/unpacker/prediffer strings, every comparison-option value and the
hidden-item list (in order), while every comparison option's has flag reads
back as true regardless of its original value, and subfolders reads back as
1 when nonzero (including the -1 sentinel) and 0 when zero. -/
theorem C1_saveRead_roundtrip (items : List ProjectFileItem)
    (h : ∀ it ∈ items, saveAllFlags it) :
    runHandler (ProjectFile.SaveEvents items) { items := [], stack := [] } =
      some { items := items.map readBack, stack := [] } ∧
    ∀ it ∈ items, agreesOnRead (readBack it) it := by
  constructor
  · have hroot : ProjectFileHandler.startElement Root_element_name
        { items := [], stack := [] } = { items := [], stack := [Root_element_name] } := by
      simp [ProjectFileHandler.startElement, Root_element_name, Paths_element_name]
    rw [ProjectFile.SaveEvents, runHandler_cons_start, hroot, runHandler_append,
      run_saveAll items h [], Option.some_bind]
    simp [runHandler, handlerStep, ProjectFileHandler.endElement]
  · intro it _hit
    simp [agreesOnRead, readBack]

/-- C1 witness: the round-trip theorem applied to a concrete one-entry
document with all persist flags at their default (true). -/
theorem C1_saveRead_roundtrip_witness :
    saveAllFlags ({ m_nIgnoreWhite := 2, m_vSavedHiddenItems := ["h"] } : ProjectFileItem) ∧
    runHandler (ProjectFile.SaveEvents
        [({ m_nIgnoreWhite := 2, m_vSavedHiddenItems := ["h"] } : ProjectFileItem)])
        { items := [], stack := [] } =
      some { items := [readBack ({ m_nIgnoreWhite := 2, m_vSavedHiddenItems := ["h"] } : ProjectFileItem)],
             stack := [] } :=
  ⟨by decide,
   (C1_saveRead_roundtrip
     [({ m_nIgnoreWhite := 2, m_vSavedHiddenItems := ["h"] } : ProjectFileItem)]
     (by decide)).1⟩

/-- C2 counterexample: a text event arriving with the stack at depth 2 (not
3) while the document is nonempty is NOT discarded: it mutates the document,
refuting the claim that text is dispatched only at depth exactly 3. -/
theorem C2_depth_gate_counterexample :
    (["left", "project"] : List String).length ≠ 3 ∧
    ([({} : ProjectFileItem)] : List ProjectFileItem) ≠ [] ∧
    runHandler [XmlEvent.characters "x"]
        { items := [({} : ProjectFileItem)], stack := ["left", "project"] } ≠
      some { items := [({} : ProjectFileItem)], stack := ["left", "project"] } := by
  refine ⟨by decide, by decide, by decide⟩

/-- C2 (amended): the guard is the source's conjunction — a text event is
discarded (state unchanged) when the stack depth differs from 3 AND the
document is empty; when the depth is exactly 3 and the document is empty the
handler reads the last entry of the empty list (modelled as failure); and any
processed text event leaves the stack and every entry but the last
unchanged. -/
theorem C2_depth_gate (st : HandlerState) (token : String) :
    (st.items = [] → st.stack.length ≠ 3 →
      runHandler [XmlEvent.characters token] st = some st) ∧
    (st.items = [] → st.stack.length = 3 →
      runHandler [XmlEvent.characters token] st = none) ∧
    (∀ st', runHandler [XmlEvent.characters token] st = some st' →
      st'.stack = st.stack ∧ st'.items.length = st.items.length ∧
      st'.items.dropLast = st.items.dropLast) := by
  refine ⟨?_, ?_, ?_⟩
  · intro h1 h2
    rw [runHandler_single]
    simp [handlerStep, ProjectFileHandler.characters, h1, h2]
  · intro h1 h2
    rw [runHandler_single]
    simp [handlerStep, ProjectFileHandler.characters, h1, h2]
  · intro st' hrun
    rw [runHandler_single] at hrun
    have h : ProjectFileHandler.characters token st = some st' := hrun
    rcases characters_cases token st st' h with ⟨rfl, _⟩ | ⟨cur, nodename, hg, hh, rfl⟩
    · exact ⟨rfl, rfl, rfl⟩
    · have hitems := eq_dropLast_concat_of_getLast st.items cur hg
      refine ⟨rfl, ?_, ?_⟩
      · conv_rhs => rw [hitems]
        simp
      · simp [List.dropLast_concat]

/-- C2 witness: the discard branch of the amended claim at a concrete state
(empty document, stack depth 1). -/
theorem C2_depth_gate_witness :
    runHandler [XmlEvent.characters "zz"] { items := [], stack := ["project"] } =
      some { items := [], stack := ["project"] } :=
  (C2_depth_gate { items := [], stack := ["project"] } "zz").1 rfl (by decide)

/-- C3: the well-formed document `<project><a><b>x</b></a></project>`
contains no paths element, so its depth-3 text event passes the handler's
guard with an empty entry list and the handler calls `back()` on the empty
`std::list` — undefined behaviour (modelled `none`), contradicting the
specified guarantee that Read succeeds on every well-formed document. -/
theorem C3_read_safety_bug :
    runHandler [XmlEvent.startElement "project", XmlEvent.startElement "a",
      XmlEvent.startElement "b", XmlEvent.characters "x", XmlEvent.endElement "b",
      XmlEvent.endElement "a", XmlEvent.endElement "project"]
      { items := [], stack := [] } = none := by decide

/-- C4 counterexample: the default entry holds the unset sentinel
subfolders = -1 with its persist flag true, and Save emits its subfolders
element with text "1", not "0" as the claim states. -/
theorem C4_subfolders_counterexample :
    ({} : ProjectFileItem).m_subfolders = -1 ∧
    ({} : ProjectFileItem).m_bSaveSubfolders = true ∧
    elementText Subfolders_element_name (saveItemEvents ({} : ProjectFileItem)) = some "1" := by
  refine ⟨rfl, rfl, by decide⟩

/-- C4 (amended): the subfolders element is emitted iff the saveSubfolders
persist flag is set (regardless of the has flag or value), and its text is
"1" when the stored integer is nonzero and "0" otherwise — so the -1
sentinel is written out as "1". -/
theorem C4_subfolders_text (item : ProjectFileItem) :
    elementText Subfolders_element_name (saveItemEvents item) =
      (if item.m_bSaveSubfolders then
        some (if item.m_subfolders ≠ 0 then "1" else "0") else none) := by
  rw [saveItemEvents_eq_blocks, elementText_cons_start_ne _ _ (by decide), itemBlocks]
  simp only [List.flatten_cons, List.flatten_nil, List.nil_append, List.append_nil,
    List.append_assoc]
  rw [elementText_emitIf_append _ _ _ _ (by decide),
    elementText_emitIf_append _ _ _ _ (by decide),
    elementText_emitIf_append _ _ _ _ (by decide),
    elementText_emitIf_append _ _ _ _ (by decide)]
  by_cases hs : item.m_bSaveSubfolders
  · rw [if_pos hs, elementText_writeElement_append]
    simp [hs]
  · rw [if_neg hs, List.nil_append, elementText_writeElement_append, if_neg (by decide),
      elementText_emitIf_append _ _ _ _ (by decide),
      elementText_writeElement_append, if_neg (by decide),
      elementText_emitIf_append _ _ _ _ (by decide),
      elementText_emitIf_append _ _ _ _ (by decide),
      elementText_emitIf_append _ _ _ _ (by decide),
      elementText_emitIf_append _ _ _ _ (by decide),
      elementText_emitIf_append _ _ _ _ (by decide),
      elementText_emitIf_append _ _ _ _ (by decide),
      elementText_emitIf_append _ _ _ _ (by decide),
      elementText_emitIf_append _ _ _ _ (by decide),
      elementText_emitIf_append _ _ _ _ (by decide),
      elementText_emitIf_append _ _ _ _ (by decide),
      elementText_emitIf_hidden_append _ _ (by decide) (by decide)]
    simp [elementText, hs]

/-- C5: left-readonly and right-readonly are always emitted whatever the
entry's paths, has flags or persist flags, while middle-readonly is emitted
iff the middle path is nonempty. -/
theorem C5_readonly_emission (item : ProjectFileItem) :
    elementText Left_ro_element_name (saveItemEvents item) =
      some (if item.m_bLeftReadOnly then "1" else "0") ∧
    elementText Right_ro_element_name (saveItemEvents item) =
      some (if item.m_bRightReadOnly then "1" else "0") ∧
    elementText Middle_ro_element_name (saveItemEvents item) =
      (if item.m_paths.GetMiddle ≠ "" then
        some (if item.m_bMiddleReadOnly then "1" else "0") else none) := by
  refine ⟨?_, ?_, ?_⟩
  · rw [saveItemEvents_eq_blocks, elementText_cons_start_ne _ _ (by decide), itemBlocks]
    simp only [List.flatten_cons, List.flatten_nil, List.nil_append, List.append_nil,
      List.append_assoc]
    rw [elementText_emitIf_append _ _ _ _ (by decide),
      elementText_emitIf_append _ _ _ _ (by decide),
      elementText_emitIf_append _ _ _ _ (by decide),
      elementText_emitIf_append _ _ _ _ (by decide),
      elementText_emitIf_append _ _ _ _ (by decide),
      elementText_writeElement_append, if_pos rfl]
  · rw [saveItemEvents_eq_blocks, elementText_cons_start_ne _ _ (by decide), itemBlocks]
    simp only [List.flatten_cons, List.flatten_nil, List.nil_append, List.append_nil,
      List.append_assoc]
    rw [elementText_emitIf_append _ _ _ _ (by decide),
      elementText_emitIf_append _ _ _ _ (by decide),
      elementText_emitIf_append _ _ _ _ (by decide),
      elementText_emitIf_append _ _ _ _ (by decide),
      elementText_emitIf_append _ _ _ _ (by decide),
      elementText_writeElement_append, if_neg (by decide),
      elementText_emitIf_append _ _ _ _ (by decide),
      elementText_writeElement_append, if_pos rfl]
  · rw [saveItemEvents_eq_blocks, elementText_cons_start_ne _ _ (by decide), itemBlocks]
    simp only [List.flatten_cons, List.flatten_nil, List.nil_append, List.append_nil,
      List.append_assoc]
    rw [elementText_emitIf_append _ _ _ _ (by decide),
      elementText_emitIf_append _ _ _ _ (by decide),
      elementText_emitIf_append _ _ _ _ (by decide),
      elementText_emitIf_append _ _ _ _ (by decide),
      elementText_emitIf_append _ _ _ _ (by decide),
      elementText_writeElement_append, if_neg (by decide)]
    by_cases hm : item.m_paths.GetMiddle = ""
    · rw [if_neg (fun hc => hc hm), List.nil_append,
        elementText_writeElement_append, if_neg (by decide),
        elementText_emitIf_append _ _ _ _ (by decide),
        elementText_emitIf_append _ _ _ _ (by decide),
        elementText_emitIf_append _ _ _ _ (by decide),
        elementText_emitIf_append _ _ _ _ (by decide),
        elementText_emitIf_append _ _ _ _ (by decide),
        elementText_emitIf_append _ _ _ _ (by decide),
        elementText_emitIf_append _ _ _ _ (by decide),
        elementText_emitIf_append _ _ _ _ (by decide),
        elementText_emitIf_append _ _ _ _ (by decide),
        elementText_emitIf_append _ _ _ _ (by decide),
        elementText_emitIf_hidden_append _ _ (by decide) (by decide)]
      simp [elementText, hm]
    · rw [if_pos hm, elementText_writeElement_append, if_pos rfl]
      simp [hm]

/-- C6 counterexample: a white-spaces element whose open and close events
arrive with no text event in between (the way a streaming tokenizer delivers
an empty element) leaves the ignore-whitespace has flag false, refuting
"has is true iff the element was encountered at least once". -/
theorem C6_has_flag_counterexample :
    runHandler [XmlEvent.startElement "project", XmlEvent.startElement "paths",
        XmlEvent.startElement "white-spaces", XmlEvent.endElement "white-spaces",
        XmlEvent.endElement "paths", XmlEvent.endElement "project"]
        { items := [], stack := [] } =
      some { items := [({} : ProjectFileItem)], stack := [] } ∧
    ({} : ProjectFileItem).m_bHasIgnoreWhite = false := by
  refine ⟨by decide, rfl⟩

/-- C6 (amended): for every has-flagged field the has flag is set exactly by
a dispatched text event for that field's element, even one with empty
payload.  Concretely for white-spaces: an empty text event yields has = true
and value 0, while a document without white-spaces leaves has = false and
value 0.  In general, for every element name: element-open appends entries
whose every has flag is false and changes no existing entry, element-close
never changes the entries, a text event dispatched while a different element
is on top of the stack leaves that element's has flag unchanged on every
entry, and a text event dispatched while a has-flagged element is on top
sets the last entry's flag for that element true; for white-spaces the
dispatched value is atoi of the text. -/
theorem C6_has_flag :
    (runHandler [XmlEvent.startElement "project", XmlEvent.startElement "paths",
        XmlEvent.startElement "white-spaces", XmlEvent.characters "",
        XmlEvent.endElement "white-spaces", XmlEvent.endElement "paths",
        XmlEvent.endElement "project"] { items := [], stack := [] } =
      some { items := [{ m_bHasIgnoreWhite := true }], stack := [] }) ∧
    (runHandler [XmlEvent.startElement "project", XmlEvent.startElement "paths",
        XmlEvent.endElement "paths", XmlEvent.endElement "project"]
        { items := [], stack := [] } =
      some { items := [({} : ProjectFileItem)], stack := [] } ∧
      ({} : ProjectFileItem).m_bHasIgnoreWhite = false ∧
      ({} : ProjectFileItem).m_nIgnoreWhite = 0) ∧
    (∀ (st : HandlerState) (name n : String),
      ((ProjectFileHandler.startElement name st).items.map (hasFlagForElement n)) =
        st.items.map (hasFlagForElement n) ++
          (if name = Paths_element_name then [false] else [])) ∧
    (∀ (st st' : HandlerState), ProjectFileHandler.endElement st = some st' →
      st'.items = st.items) ∧
    (∀ (st st' : HandlerState) (token n : String),
      ProjectFileHandler.characters token st = some st' →
      st.stack.head? ≠ some n →
      st'.items.map (hasFlagForElement n) = st.items.map (hasFlagForElement n)) ∧
    (∀ (st st' : HandlerState) (token n : String),
      ProjectFileHandler.characters token st = some st' →
      st.stack.head? = some n → n ∈ hasElementNames → st.items ≠ [] →
      st'.items.map (hasFlagForElement n) =
        st.items.dropLast.map (hasFlagForElement n) ++ [true]) ∧
    (∀ (st st' : HandlerState) (token : String),
      ProjectFileHandler.characters token st = some st' →
      st.stack.head? = some White_spaces_element_name → st.items ≠ [] →
      st'.items.getLast?.map ProjectFileItem.m_nIgnoreWhite = some (atoi token)) := by
  refine ⟨by decide, ⟨by decide, rfl, rfl⟩, ?_, ?_, ?_, ?_, ?_⟩
  · intro st name n
    unfold ProjectFileHandler.startElement
    by_cases hn : name = Paths_element_name <;> simp [hn, hasFlagForElement_default]
  · intro st st' h
    unfold ProjectFileHandler.endElement at h
    split at h
    · exact Option.noConfusion h
    · cases h; rfl
  · intro st st' token n h hne
    rcases characters_cases token st st' h with ⟨rfl, _⟩ | ⟨cur, nodename, hg, hh, rfl⟩
    · rfl
    · have hnn : n ≠ nodename := by
        intro he; rw [he] at hne; exact hne hh
      have hother := charactersUpdate_hasFlag_other n nodename token cur hnn
      have hitems := eq_dropLast_concat_of_getLast st.items cur hg
      conv_rhs => rw [hitems]
      simp [List.map_append, hother]
  · intro st st' token n h hws hmem hne
    rcases characters_cases token st st' h with ⟨rfl, he⟩ | ⟨cur, nodename, hg, hh, rfl⟩
    · exact absurd he hne
    · rw [hws] at hh
      injection hh with h2
      rw [← h2]
      have hself := charactersUpdate_hasFlag_self n token cur hmem
      simp [List.map_append, hself]
  · intro st st' token h hws hne
    rcases characters_cases token st st' h with ⟨rfl, he⟩ | ⟨cur, nodename, hg, hh, rfl⟩
    · exact absurd he hne
    · rw [hws] at hh
      injection hh with h2
      rw [← h2]
      simp [List.getLast?_concat, charactersUpdate_white_spaces]

/-- C6 witness: the general has-flag dispatch conjunct of the amended claim
at a concrete state, instantiated with the white-spaces element. -/
theorem C6_has_flag_witness :
    ([({ m_nIgnoreWhite := 7, m_bHasIgnoreWhite := true } : ProjectFileItem)]).map
        (hasFlagForElement White_spaces_element_name) =
      ([({} : ProjectFileItem)]).dropLast.map (hasFlagForElement White_spaces_element_name)
        ++ [true] :=
  C6_has_flag.2.2.2.2.2.1
    { items := [({} : ProjectFileItem)], stack := ["white-spaces", "paths", "project"] }
    { items := [({ m_nIgnoreWhite := 7, m_bHasIgnoreWhite := true } : ProjectFileItem)],
      stack := ["white-spaces", "paths", "project"] }
    "7" White_spaces_element_name (by decide) rfl (by decide) (by decide)

/-- C7: for each string-valued field (left, middle, right, filter, unpacker,
prediffer), two successive text events for the same open element accumulate
by concatenation in delivery order, not replacement. -/
theorem C7_text_concatenation :
    (∀ (t1 t2 : String) (prev : List ProjectFileItem) (cur : ProjectFileItem)
        (stack : List String),
      runHandler [XmlEvent.characters t1, XmlEvent.characters t2]
          { items := prev ++ [cur], stack := Left_element_name :: stack } =
        some { items := prev ++ [{ cur with
                 m_paths := { cur.m_paths with m_left := cur.m_paths.m_left ++ (t1 ++ t2) },
                 m_bHasLeft := true }],
               stack := Left_element_name :: stack }) ∧
    (∀ (t1 t2 : String) (prev : List ProjectFileItem) (cur : ProjectFileItem)
        (stack : List String),
      runHandler [XmlEvent.characters t1, XmlEvent.characters t2]
          { items := prev ++ [cur], stack := Middle_element_name :: stack } =
        some { items := prev ++ [{ cur with
                 m_paths := { cur.m_paths with m_middle := cur.m_paths.m_middle ++ (t1 ++ t2) },
                 m_bHasMiddle := true }],
               stack := Middle_element_name :: stack }) ∧
    (∀ (t1 t2 : String) (prev : List ProjectFileItem) (cur : ProjectFileItem)
        (stack : List String),
      runHandler [XmlEvent.characters t1, XmlEvent.characters t2]
          { items := prev ++ [cur], stack := Right_element_name :: stack } =
        some { items := prev ++ [{ cur with
                 m_paths := { cur.m_paths with m_right := cur.m_paths.m_right ++ (t1 ++ t2) },
                 m_bHasRight := true }],
               stack := Right_element_name :: stack }) ∧
    (∀ (t1 t2 : String) (prev : List ProjectFileItem) (cur : ProjectFileItem)
        (stack : List String),
      runHandler [XmlEvent.characters t1, XmlEvent.characters t2]
          { items := prev ++ [cur], stack := Filter_element_name :: stack } =
        some { items := prev ++ [{ cur with
                 m_filter := cur.m_filter ++ (t1 ++ t2), m_bHasFilter := true }],
               stack := Filter_element_name :: stack }) ∧
    (∀ (t1 t2 : String) (prev : List ProjectFileItem) (cur : ProjectFileItem)
        (stack : List String),
      runHandler [XmlEvent.characters t1, XmlEvent.characters t2]
          { items := prev ++ [cur], stack := Unpacker_element_name :: stack } =
        some { items := prev ++ [{ cur with
                 m_unpacker := cur.m_unpacker ++ (t1 ++ t2), m_bHasUnpacker := true }],
               stack := Unpacker_element_name :: stack }) ∧
    (∀ (t1 t2 : String) (prev : List ProjectFileItem) (cur : ProjectFileItem)
        (stack : List String),
      runHandler [XmlEvent.characters t1, XmlEvent.characters t2]
          { items := prev ++ [cur], stack := Prediffer_element_name :: stack } =
        some { items := prev ++ [{ cur with
                 m_prediffer := cur.m_prediffer ++ (t1 ++ t2), m_bHasPrediffer := true }],
               stack := Prediffer_element_name :: stack }) := by
  have hsplit : ∀ (t1 t2 : String), ([XmlEvent.characters t1, XmlEvent.characters t2] :
      List XmlEvent) = [XmlEvent.characters t1] ++ [XmlEvent.characters t2] := fun _ _ => rfl
  refine ⟨?_, ?_, ?_, ?_, ?_, ?_⟩ <;> intro t1 t2 prev cur stack <;>
    rw [hsplit, runHandler_append, run_characters_top, Option.some_bind,
      run_characters_top] <;>
    simp [charactersUpdate_left, charactersUpdate_middle, charactersUpdate_right,
      charactersUpdate_filter, charactersUpdate_unpacker, charactersUpdate_prediffer,
      String.append_assoc]

/-- C8 counterexample: one top-level paths element containing a nested paths
element appends two entries, not one per top-level path group. -/
theorem C8_entry_creation_counterexample :
    runHandler [XmlEvent.startElement "project", XmlEvent.startElement "paths",
        XmlEvent.startElement "paths"] { items := [], stack := [] } =
      some { items := [({} : ProjectFileItem), ({} : ProjectFileItem)],
             stack := ["paths", "paths", "project"] } := by decide

/-- C8 (amended): exactly one fully-default entry is appended per paths
element-open event at any depth (not only top level), at the moment the open
event is handled and at the end of the list, so it becomes the current
(last) entry; non-paths opens append nothing; and a text event never mutates
any entry other than the last. -/
theorem C8_entry_creation (st : HandlerState) (name : String) :
    ((ProjectFileHandler.startElement name st).items.length =
      st.items.length + (if name = Paths_element_name then 1 else 0)) ∧
    ((ProjectFileHandler.startElement name st).items.take st.items.length = st.items) ∧
    ((ProjectFileHandler.startElement Paths_element_name st).items.getLast? =
      some ({} : ProjectFileItem)) ∧
    ((ProjectFileHandler.startElement name st).stack = name :: st.stack) ∧
    (∀ (token : String) (st' : HandlerState),
      ProjectFileHandler.characters token st = some st' →
      st'.items.dropLast = st.items.dropLast) := by
  refine ⟨?_, ?_, ?_, rfl, ?_⟩
  · unfold ProjectFileHandler.startElement
    by_cases hn : name = Paths_element_name <;> simp [hn]
  · unfold ProjectFileHandler.startElement
    by_cases hn : name = Paths_element_name <;> simp [hn, List.take_left]
  · unfold ProjectFileHandler.startElement
    simp [List.getLast?_concat]
  · intro token st' h
    rcases characters_cases token st st' h with ⟨rfl, _⟩ | ⟨cur, nodename, hg, hh, rfl⟩
    · rfl
    · simp [List.dropLast_concat]

/-- C8 witness: the amended claim applied at concrete states — a paths open
on the empty state ends with the new default entry last, and a text event on
a one-entry state preserves everything before the last entry. -/
theorem C8_entry_creation_witness :
    (ProjectFileHandler.startElement Paths_element_name
        { items := [], stack := [] }).items.getLast? = some ({} : ProjectFileItem) ∧
    ([charactersUpdate "left" "t" ({} : ProjectFileItem)] :
        List ProjectFileItem).dropLast =
      ([({} : ProjectFileItem)] : List ProjectFileItem).dropLast :=
  ⟨(C8_entry_creation { items := [], stack := [] } Paths_element_name).2.2.1,
   (C8_entry_creation { items := [({} : ProjectFileItem)], stack := ["left"] } "x").2.2.2.2
     "t" { items := [charactersUpdate "left" "t" ({} : ProjectFileItem)], stack := ["left"] }
     (by decide)⟩

/-- C9: GetPaths always copies the entry's path triple into the files
output, and overwrites the caller's recurse value iff the subfolders has
flag is set, in which case recurse becomes (stored subfolders value == 1) —
any other value, zero or nonzero, yields false; with the has flag clear the
caller's pre-seeded value is returned unchanged. -/
theorem C9_getPaths_recurse (it : ProjectFileItem) (bSubfolders : Bool) :
    (it.GetPaths bSubfolders).1 = it.m_paths ∧
    (it.m_bHasSubfolders = true →
      (it.GetPaths bSubfolders).2 = decide (it.m_subfolders = 1)) ∧
    (it.m_bHasSubfolders = false → (it.GetPaths bSubfolders).2 = bSubfolders) := by
  unfold ProjectFileItem.GetPaths ProjectFileItem.HasSubfolders ProjectFileItem.GetSubfolders
  cases h : it.m_bHasSubfolders <;> simp [h]

/-- C9 witness: an entry with an explicit subfolders value of 5 and a
pre-seeded recurse of true yields recurse = false. -/
theorem C9_getPaths_recurse_witness :
    (({ m_bHasSubfolders := true, m_subfolders := 5 } : ProjectFileItem).GetPaths true).2 =
      false := by
  have h := (C9_getPaths_recurse
    ({ m_bHasSubfolders := true, m_subfolders := 5 } : ProjectFileItem) true).2.1 rfl
  exact h.trans (by decide)

/-- C10 counterexample: reading the well-formed document
`<project><left>x</left></project>` into a ProjectFile whose entry list
already holds one default entry mutates that pre-existing entry (its left
path becomes "x") instead of leaving it unchanged. -/
theorem C10_read_append_counterexample :
    ProjectFile.ReadRun [XmlEvent.startElement "project", XmlEvent.startElement "left",
        XmlEvent.characters "x", XmlEvent.endElement "left", XmlEvent.endElement "project"]
      [({} : ProjectFileItem)] =
      some { items := [{ m_paths := { m_left := "x" }, m_bHasLeft := true }], stack := [] } ∧
    ({ m_paths := { m_left := "x" }, m_bHasLeft := true } : ProjectFileItem) ≠
      ({} : ProjectFileItem) := by
  refine ⟨by decide, by decide⟩

/-- C10 (amended): Read never resets the document — for every event stream
that delivers no text event before its first paths element open (true of
every schema-conformant document), running Read over a ProjectFile with
pre-existing entries produces exactly the entries the same parse yields on
an empty document, appended after the untouched pre-existing ones. -/
theorem C10_read_append (ev : List XmlEvent) (items0 : List ProjectFileItem)
    (h : noTextBeforePaths ev = true) :
    ProjectFile.ReadRun ev items0 =
    (ProjectFile.ReadRun ev []).map
      (fun st => { items := items0 ++ st.items, stack := st.stack }) := by
  unfold ProjectFile.ReadRun
  exact runHandler_noText ev items0 [] h

/-- C10 witness: the amended claim at a concrete one-group document read
into a ProjectFile that already holds one entry. -/
theorem C10_read_append_witness :
    ProjectFile.ReadRun [XmlEvent.startElement "project", XmlEvent.startElement "paths",
        XmlEvent.endElement "paths", XmlEvent.endElement "project"]
      [({} : ProjectFileItem)] =
      some { items := [({} : ProjectFileItem), ({} : ProjectFileItem)], stack := [] } := by
  have h := C10_read_append [XmlEvent.startElement "project", XmlEvent.startElement "paths",
    XmlEvent.endElement "paths", XmlEvent.endElement "project"]
    [({} : ProjectFileItem)] (by decide)
  rw [h]
  decide
